import Mathlib

/-!
Verification of the BarikWrapped transit-statistics core against its
natural-language specification.

The development shallowly embeds the TypeScript sources:
  - `src/app/lib/pdfParser.ts` (table extractor),
  - `src/app/components/history/historyDataTransforms.ts`
    (fare-insight engine, journey builder, statistics, tariff catalog),
  - `src/app/components/metro/MetroDiagram.tsx` (station graph and path finder).

Modelling conventions:
  - JavaScript `number` values are modelled with `JsNumber`, an exact
    integer fraction `num / den` with `den > 0` maintained by construction.
    Arithmetic that is exact in IEEE doubles at the magnitudes involved
    (millisecond subtraction, comparison, sign/absolute value, division by
    a positive integer on the duration path) is kept exact.  Where IEEE
    rounding is observable and claim-deciding it is modelled bit-exactly:
    `f64Round`/`f64Add` implement round-to-nearest-even binary64 addition
    for the monetary accumulations of the statistics aggregator, and
    `jsIsFiniteDouble` implements the exact overflow threshold behind the
    `Number.isFinite` guard of `parseAmount`.
  - JavaScript strings are Lean `String`s; helpers below re-implement the
    handful of library operations the sources use (`toLowerCase`, `trim`,
    `includes`, `replace(/\s+/g, ...)`, `split`), restricted to the
    character classes the sources mention.
  - `Array.prototype.sort` is modelled by a stable insertion sort
    (`jsSort`), matching the ES2019 stability guarantee.
  - JS `Map` objects are modelled by insertion-ordered association lists
    with overwrite-on-set semantics.
  - `Date` values are modelled as integer epoch milliseconds on a
    timezone-free linear Gregorian calendar (no DST); `getRecordDate`
    below parses exactly the timestamp shapes the extractor produces.
-/

/-! ## JavaScript number model -/

/-- Exact model of a JavaScript `number`: the fraction `num / den`.
Every constructor used in this file keeps `den > 0`; representations are
not normalised, so `=` on `JsNumber` is representation equality (all
theorems below that need value equality prove it componentwise). -/
structure JsNumber where
  num : Int
  den : Int
deriving DecidableEq, Repr

instance : OfNat JsNumber n := ⟨⟨(n : Int), 1⟩⟩

/-- Embed an integer (used for integer-valued JS expressions). -/
def JsNumber.ofInt (n : Int) : JsNumber := ⟨n, 1⟩

/-- JS `a + b` (exact). -/
def JsNumber.add (a b : JsNumber) : JsNumber :=
  ⟨a.num * b.den + b.num * a.den, a.den * b.den⟩

/-- JS `a - b` (exact). -/
def JsNumber.sub (a b : JsNumber) : JsNumber :=
  ⟨a.num * b.den - b.num * a.den, a.den * b.den⟩

/-- JS `-a`. -/
def JsNumber.neg (a : JsNumber) : JsNumber := ⟨-a.num, a.den⟩

/-- Strict comparison `a < b`; correct whenever both denominators are
positive, which every construction in this file maintains. -/
def JsNumber.ltb (a b : JsNumber) : Bool := a.num * b.den < b.num * a.den

/-- Comparison `a <= b` under the same positivity convention. -/
def JsNumber.leb (a b : JsNumber) : Bool := a.num * b.den ≤ b.num * a.den

/-- JS `Math.abs`. -/
def jsAbs (a : JsNumber) : JsNumber := if a.num < 0 then ⟨-a.num, a.den⟩ else a

/-- JS `Math.max` on two numbers. -/
def jsMax (a b : JsNumber) : JsNumber := if JsNumber.leb a b then b else a

/-- JS `a / k` for a positive integer `k` (the sources only divide by
positive guards or positive literals). -/
def JsNumber.divByPosInt (a : JsNumber) (k : Int) : JsNumber := ⟨a.num, a.den * k⟩

/-- JS `Math.round q` for `q = num / den` with `den > 0`:
`round(q) = floor(q + 1/2) = floor((2 num + den) / (2 den))`. -/
def jsRound (q : JsNumber) : Int := (2 * q.num + q.den).fdiv (2 * q.den)

/-- JS `Math.ceil (a / b)` for integers with `b > 0`:
`ceil(a/b) = -floor(-a/b)`. -/
def jsCeilDiv (a b : Int) : Int := -((-a).fdiv b)

/-- Binary digit count of a natural number (fuel-indexed structural
recursion; the fuel argument strictly dominates the halving chain). -/
def natBitsAux : Nat → Nat → Nat
  | 0, _ => 0
  | fuel + 1, n => if n = 0 then 0 else natBitsAux fuel (n / 2) + 1

/-- Number of binary digits of `n` (`0` for `0`). -/
def natBits (n : Nat) : Nat := natBitsAux (n + 1) n

/-- Round the ratio `n / d` (with `d > 0`) to the nearest integer,
ties to even — the significand-rounding step of IEEE round-to-nearest. -/
def roundRatHalfEven (n d : Nat) : Nat :=
  let q := n / d
  let r := n % d
  if d < 2 * r then q + 1
  else if 2 * r < d then q
  else if q % 2 = 0 then q else q + 1

/-- Round an exact positive rational `n / d` to the IEEE binary64 grid
(round to nearest, ties to even), returned as `(mantissa, exponent)` with
value `mantissa * 2 ^ exponent` (`exponent` of the unit in the last
place, negated in `signedExp`).  Normal range only: every magnitude this
development feeds it lies far from overflow and subnormals. -/
def f64RoundPos (n d : Nat) : Nat × Int :=
  let shift : Int := 53 - ((natBits n : Int) - (natBits d : Int))
  let scale : Nat × Nat :=
    if 0 ≤ shift then (n * 2 ^ shift.toNat, d) else (n, d * 2 ^ (-shift).toNat)
  let m1 := roundRatHalfEven scale.1 scale.2
  if m1 < 2 ^ 53 then (m1, -shift)
  else
    let shift2 := shift - 1
    let scale2 : Nat × Nat :=
      if 0 ≤ shift2 then (n * 2 ^ shift2.toNat, d) else (n, d * 2 ^ (-shift2).toNat)
    (roundRatHalfEven scale2.1 scale2.2, -shift2)

/-- Round an exact rational to the nearest IEEE binary64 value
(normal range), as an exact `JsNumber`. -/
def f64Round (q : JsNumber) : JsNumber :=
  if q.num = 0 then ⟨0, 1⟩
  else
    let rounded := f64RoundPos q.num.natAbs q.den.natAbs
    let sign : Int := if q.num < 0 then -1 else 1
    if 0 ≤ rounded.2 then ⟨sign * rounded.1 * 2 ^ rounded.2.toNat, 1⟩
    else ⟨sign * rounded.1, 2 ^ (-rounded.2).toNat⟩

/-- IEEE binary64 addition: the exact sum, rounded to nearest-even.
This is the JS `+` on `number`s at the magnitudes of this development
(no overflow, no subnormals, no `NaN` on the guarded paths). -/
def f64Add (a b : JsNumber) : JsNumber := f64Round (a.add b)

/-- The IEEE round-to-nearest-even overflow threshold of binary64:
magnitudes at or above `2 ^ 1024 - 2 ^ 970` round to infinity, anything
strictly below rounds to a finite double (the constant is written as a
numeral so that it evaluates without deep recursion). -/
def F64_OVERFLOW_THRESHOLD : Int :=
  179769313486231580793728971405303415079934132710037826936173778980444968292764750946649017977587207096330286416692887910946555547851940402630657488671505820681908902000708383676273854845817711531764475730270069855571366959622842914819860834936475292719074168444365510704342711559699508093042880177904174497792

/-- `Number.isFinite` applied to the result of `parseFloat` on the exact
parsed value: `parseFloat` rounds to binary64, which is finite exactly
when the exact magnitude lies strictly below the overflow threshold
(`NaN` is the parser's `none` and never reaches this test). -/
def jsIsFiniteDouble (q : JsNumber) : Bool :=
  (q.num.natAbs : Int) < F64_OVERFLOW_THRESHOLD * q.den

/-! ## JavaScript string helpers -/

/-- Whitespace class of the `\s` regex escape (the code points the
sources can actually meet in PDF text). -/
def jsIsWs (c : Char) : Bool :=
  c = ' ' || c = '\t' || c = '\n' || c = '\r' || c = '\x0b' || c = '\x0c'

/-- ASCII decimal digit test (regex `\d`). -/
def isDigitChar (c : Char) : Bool := '0' ≤ c && c ≤ '9'

/-- ASCII lowering; the accented letters the sources compare against are
already lowercase in the needles, so ASCII lowering suffices on the
claim-relevant inputs. -/
def lowerChar (c : Char) : Char :=
  if 'A' ≤ c && c ≤ 'Z' then Char.ofNat (c.toNat + 32) else c

/-- ASCII raising (used by `toUpperCase` after diacritic stripping). -/
def upperChar (c : Char) : Char :=
  if 'a' ≤ c && c ≤ 'z' then Char.ofNat (c.toNat - 32) else c

/-- JS `s.toLowerCase()`. -/
def strLower (s : String) : String := ⟨s.data.map lowerChar⟩

/-- JS `s.toUpperCase()`. -/
def strUpper (s : String) : String := ⟨s.data.map upperChar⟩

/-- Does `pat` start the list `l`. -/
def listStartsWith : List Char → List Char → Bool
  | [], _ => true
  | _ :: _, [] => false
  | a :: as, b :: bs => a == b && listStartsWith as bs

/-- Does the list contain `pat` as a contiguous run (JS `includes`). -/
def listContainsSeq (pat : List Char) : List Char → Bool
  | [] => pat.isEmpty
  | c :: cs => listStartsWith pat (c :: cs) || listContainsSeq pat cs

/-- JS `s.includes(pat)`. -/
def strContains (s pat : String) : Bool := listContainsSeq pat.data s.data

/-- Case-insensitive containment (a case-insensitive regex literal test
such as `/CONT/i.test(s)`). -/
def strContainsCI (s pat : String) : Bool := strContains (strUpper s) (strUpper pat)

/-- Case-insensitive end-anchored test (`/TRANS$/i.test(s)`). -/
def strEndsWithCI (s pat : String) : Bool :=
  listStartsWith (strUpper pat).data.reverse (strUpper s).data.reverse

/-- JS `s.trimStart()` restricted to the `\s` class above. -/
def strTrimStart (s : String) : String := ⟨s.data.dropWhile jsIsWs⟩

/-- JS `s.trimEnd()`. -/
def strTrimEnd (s : String) : String := ⟨(s.data.reverse.dropWhile jsIsWs).reverse⟩

/-- JS `s.trim()`. -/
def strTrim (s : String) : String := strTrimStart (strTrimEnd s)

/-- Collapse immediately repeated spaces (helper for `replace(/\s+/g, ' ')`
after each whitespace character has been mapped to `' '`). -/
def squeezeSpaces : List Char → List Char
  | [] => []
  | [c] => [c]
  | a :: b :: rest =>
    if a = ' ' && b = ' ' then squeezeSpaces (b :: rest) else a :: squeezeSpaces (b :: rest)

/-- JS `s.replace(/\s+/g, ' ')`. -/
def collapseWs (s : String) : String :=
  ⟨squeezeSpaces (s.data.map (fun c => if jsIsWs c then ' ' else c))⟩

/-- JS `s.replace(/\s+/g, '')`. -/
def removeWs (s : String) : String := ⟨s.data.filter (fun c => !jsIsWs c)⟩

/-- JS `s.replace(/\D/g, '')`: keep only ASCII digits. -/
def digitsOnlyStr (s : String) : String := ⟨s.data.filter isDigitChar⟩

/-- Numeric value of a digit list (most significant first). -/
def digitsToNat (l : List Char) : Nat :=
  l.foldl (fun acc c => acc * 10 + (c.toNat - '0'.toNat)) 0

/-- Split on a separator character (JS `s.split(sep)` for a one-character
separator); tail-building auxiliary. -/
def splitOnCharAux (sep : Char) (acc : List Char) : List Char → List (List Char)
  | [] => [acc.reverse]
  | c :: cs =>
    if c = sep then acc.reverse :: splitOnCharAux sep [] cs
    else splitOnCharAux sep (c :: acc) cs

/-- JS `s.split(sep)` for a one-character separator. -/
def strSplitOnChar (sep : Char) (s : String) : List String :=
  (splitOnCharAux sep [] s.data).map (fun l => ⟨l⟩)

/-- Split on whitespace runs (JS `s.split(/\s+/)` applied after a
`trimStart`, which is the only way the sources use it). -/
def splitWsRuns (s : String) : List String :=
  (strSplitOnChar ' ' (collapseWs s)).filter (fun t => t ≠ "")

/-- Replace the first occurrence of a character (JS `s.replace(',', '.')`
with a plain string pattern replaces only the first occurrence). -/
def replaceFirstChar (pat repl : Char) : List Char → List Char
  | [] => []
  | c :: cs => if c = pat then repl :: cs else c :: replaceFirstChar pat repl cs

/-- Join a list of strings with a separator (JS `arr.join(sep)`). -/
def joinWith (sep : String) : List String → String
  | [] => ""
  | [s] => s
  | s :: rest => s ++ sep ++ joinWith sep rest

/-! ## Stable sort and association-list maps -/

/-- Insert `a` after every element `b` with `¬ ltb a b` (so after all
elements that compare equal), preserving stability. -/
def insertSorted (ltb : α → α → Bool) (a : α) : List α → List α
  | [] => [a]
  | b :: l => if ltb a b then a :: b :: l else b :: insertSorted ltb a l

/-- Stable sort modelling ES2019 `Array.prototype.sort` with a comparator
whose strict comes-before relation is `ltb`. -/
def jsSort (ltb : α → α → Bool) (l : List α) : List α :=
  l.foldl (fun acc a => insertSorted ltb a acc) []

/-- Lookup in a JS `Map` modelled as an association list. -/
def mapGet (m : List (String × β)) (k : String) : Option β :=
  (m.find? (fun p => p.1 == k)).map (·.2)

/-- JS `Map.prototype.set`: overwrite the existing binding in place, else
append (preserving insertion order). -/
def mapSet (m : List (String × β)) (k : String) (v : β) : List (String × β) :=
  if (m.find? (fun p => p.1 == k)).isSome then
    m.map (fun p => if p.1 == k then (k, v) else p)
  else m ++ [(k, v)]

/-! ## Date model

JS `Date` values are modelled as epoch milliseconds on a timezone-free
proleptic Gregorian calendar (the sources only ever compare, subtract and
add whole days, so the fixed-offset abstraction is faithful). -/

/-- Milliseconds per day (`DAY_MS` in `historyDataTransforms.ts`). -/
def DAY_MS : Int := 24 * 60 * 60 * 1000

/-- Days from 1970-01-01 to the Gregorian date `y-m-d` for `m ∈ [1,12]`
(days `d` outside the month range continue linearly, matching the JS
`Date` rollover behaviour). -/
def daysFromCivil (y m d : Int) : Int :=
  let y1 := if m ≤ 2 then y - 1 else y
  let era := y1.fdiv 400
  let yoe := y1 - era * 400
  let mp := (m + 9).fmod 12
  let doy := (153 * mp + 2).fdiv 5 + d - 1
  let doe := yoe * 365 + yoe.fdiv 4 - yoe.fdiv 100 + doy
  era * 146097 + doe - 719468

/-- Epoch milliseconds of calendar components, with JS month/day/hour
rollover modelled by linear continuation and months normalised first. -/
def civilToMs (y m d hh mi ss : Int) : Int :=
  let m0 := m - 1
  let y2 := y + m0.fdiv 12
  let m2 := m0.fmod 12 + 1
  daysFromCivil y2 m2 d * DAY_MS + hh * 3600000 + mi * 60000 + ss * 1000

/-- Parse a decimal component string; the sources only feed digit strings
here (`Number(...)` and `new Date(iso)` component parsing). -/
def parseDigits (s : String) : Option Int :=
  if s ≠ "" && s.data.all isDigitChar then some (digitsToNat s.data : Int) else none

/-- Parse the ISO timestamps produced by `toIso` in `pdfParser.ts`
(`YYYY-MM-DDTHH:MM:SS`); other shapes never reach `getRecordDate` with a
nonempty timestamp in this code base. -/
def parseIsoTimestamp (s : String) : Option Int :=
  match strSplitOnChar 'T' s with
  | [d, t] =>
    match strSplitOnChar '-' d, strSplitOnChar ':' t with
    | [y, m, dd], [hh, mi, ss] =>
      match parseDigits y, parseDigits m, parseDigits dd,
            parseDigits hh, parseDigits mi, parseDigits ss with
      | some vy, some vm, some vd, some vh, some vmi, some vs =>
        some (civilToMs vy vm vd vh vmi vs)
      | _, _, _, _, _, _ => none
    | _, _ => none
  | _ => none

/-! ## `TransactionRecord` (pdfParser.ts) -/

/-- One extracted table row (`TransactionRecord` in `pdfParser.ts`).
`importe`/`saldo` are plain numbers there (`parseAmount` never yields
`NaN`), hence plain `JsNumber` fields here. -/
structure TransactionRecord where
  cont : Nat
  fecha : String
  hora : String
  timestamp : String
  transaccion : String
  operador : String
  equipo : String
  importe : JsNumber
  saldo : JsNumber
  titulo : String
  perfil : String
  etapa : String
  page : Nat
deriving DecidableEq, Repr

/-! ## historyDataTransforms.ts: record helpers -/

/-- `getRecordDate`, returning epoch milliseconds.  The JS version builds
a `Date` from the ISO timestamp when present, else from the `fecha`/`hora`
fields with `'01'`/`'1970'`/`'00'` defaults.  An unparseable component
would give a `NaN` date in JS; no code path in this repository produces
one, and the model collapses that corner to `0`. -/
def getRecordDate (record : TransactionRecord) : Int :=
  if record.timestamp ≠ "" then
    (parseIsoTimestamp record.timestamp).getD 0
  else
    let dparts := strSplitOnChar '/' record.fecha
    let tparts := strSplitOnChar ':' record.hora
    let day := (dparts.get? 0).getD "01"
    let month := (dparts.get? 1).getD "01"
    let year := (dparts.get? 2).getD "1970"
    let hour := (tparts.get? 0).getD "00"
    let minute := (tparts.get? 1).getD "00"
    let second := (tparts.get? 2).getD "00"
    match parseDigits year, parseDigits month, parseDigits day,
          parseDigits hour, parseDigits minute, parseDigits second with
    | some vy, some vm, some vd, some vh, some vmi, some vs =>
      -- `new Date(y, m-1, d, ...)` maps two-digit years to 1900+y.
      civilToMs (if 0 ≤ vy ∧ vy ≤ 99 then vy + 1900 else vy) vm vd vh vmi vs
    | _, _, _, _, _, _ => 0

/-- `addDays` (model: linear day arithmetic; `setDate` has no DST in the
timezone-free calendar). -/
def addDays (dateMs : Int) (days : Int) : Int := dateMs + days * DAY_MS

/-- `isSingleValidation`. -/
def isSingleValidation (record : TransactionRecord) : Bool :=
  strContains (strLower record.transaccion) "unica"

/-- `isEntryValidation`. -/
def isEntryValidation (record : TransactionRecord) : Bool :=
  let text := strLower record.transaccion
  strContains text "entrada" && !strContains text "recarga"

/-- `isExitValidation`. -/
def isExitValidation (record : TransactionRecord) : Bool :=
  let text := strLower record.transaccion
  strContains text "salida" && !strContains text "recarga"

/-- `isRecargaTransaction`. -/
def isRecargaTransaction (record : TransactionRecord) : Bool :=
  let text := strLower record.transaccion
  if text = "" then false
  else if strContains text "recarga" then true
  else strContains text "compra" && strContains text "titulo"

/-- `isWalletRechargeRecord`. -/
def isWalletRechargeRecord (record : TransactionRecord) : Bool :=
  let text := strLower record.transaccion
  strContains text "recarga" && strContains text "monedero"

/-- `isTitleRechargeRecord`. -/
def isTitleRechargeRecord (record : TransactionRecord) : Bool :=
  let text := strLower record.transaccion
  if text = "" then false
  else
    let isExplicitTitleRecharge := strContains text "recarga" && !strContains text "monedero"
    let isCompraTitulo := strContains text "compra" && strContains text "titulo"
    isExplicitTitleRecharge || isCompraTitulo

/-- `getRecordKey`: the template literal `page-cont-timestamp`. -/
def getRecordKey (record : TransactionRecord) : String :=
  toString record.page ++ "-" ++ toString record.cont ++ "-" ++ record.timestamp

/-- `TEN_HOURS_MS`. -/
def TEN_HOURS_MS : Int := 10 * 60 * 60 * 1000

/-! ## Tariff catalog (historyDataTransforms.ts) -/

/-- Tariff kind (`TariffKind` in `historyTypes.ts`). -/
inductive TariffKind
  | wallet
  | limitedPass
  | unlimitedPass
deriving DecidableEq, Repr

/-- A flattened rate entry. -/
structure TariffRate where
  type : String
  zones : String
  price : JsNumber
deriving DecidableEq, Repr

/-- A raw rate entry; `price` is `none` when missing or non-numeric
(the `Number(rate.price) || 0` guard then yields `0`). -/
structure RawTariffRate where
  type : String
  zones : String
  price : Option JsNumber
deriving DecidableEq, Repr

/-- Raw catalog entry (`RawTariffDefinition`); `limitTravel` is `none`
when absent/non-finite in the JSON. -/
structure RawTariffDefinition where
  code : String
  name : String
  category : String
  limitTravel : Option Int
  rates : List (List RawTariffRate)
deriving DecidableEq, Repr

/-- Resolved catalog entry (`TariffDefinition`). -/
structure TariffDefinition where
  code : String
  name : String
  normalizedName : String
  category : String
  limitTravel : Int
  kind : TariffKind
  rates : List TariffRate
deriving DecidableEq, Repr

/-- `FALLBACK_TARIFF_LABEL`. -/
def FALLBACK_TARIFF_LABEL : String := "Creditrans barik"

/-- Latin-1 diacritic removal, modelling Unicode NFD followed by
stripping the combining range `[̀-ͯ]` for the letters that can
occur in the catalog and the PDF text. -/
def stripDiacritic (c : Char) : Char :=
  match c with
  | 'á' => 'a' | 'é' => 'e' | 'í' => 'i' | 'ó' => 'o' | 'ú' => 'u'
  | 'ü' => 'u' | 'ñ' => 'n'
  | 'Á' => 'A' | 'É' => 'E' | 'Í' => 'I' | 'Ó' => 'O' | 'Ú' => 'U'
  | 'Ü' => 'U' | 'Ñ' => 'N'
  | _ => c

/-- `normalizeTitleLabel`: fall back to `FALLBACK_TARIFF_LABEL` for
falsy/blank labels, then NFD + strip control characters + strip combining
accents + collapse whitespace + trim + uppercase. -/
def normalizeTitleLabel (value : String) : String :=
  let base := if value ≠ "" ∧ strTrim value ≠ "" then value else FALLBACK_TARIFF_LABEL
  strUpper (strTrim (collapseWs ⟨(base.data.map stripDiacritic).filter (fun c => c.toNat ≥ 32)⟩))

/-- `inferTariffKind`. -/
def inferTariffKind (category : String) (limitTravel : Int) : TariffKind :=
  if category = "coin_purse" then TariffKind.wallet
  else if limitTravel > 0 then TariffKind.limitedPass
  else if category = "monthly" ∨ category = "youthMonthly" then TariffKind.unlimitedPass
  else if limitTravel > 0 then TariffKind.limitedPass else TariffKind.wallet

/-- `flattenTariffRates` (the `.filter(Boolean)` step drops JSON nulls,
which the model's lists cannot contain). -/
def flattenTariffRates (rates : List (List RawTariffRate)) : List TariffRate :=
  rates.flatten.map (fun rate =>
    { type := rate.type, zones := rate.zones, price := rate.price.getD 0 })

/-- Modelled from the spec: the static tariff catalog `files/tarifas.json`
is not under `src/`.  Per spec sections 4.2 and 8 the model contains the
default wallet tariff "Creditrans barik" (purse category, no trip limit)
and the limited pass "BONOBUS10" (10-trip limit, 30-day validity via the
limited-pass rule). -/
def RAW_TARIFFS : List RawTariffDefinition :=
  [ { code := "CRED", name := "Creditrans barik", category := "coin_purse",
      limitTravel := some 0, rates := [] },
    { code := "BB10", name := "BONOBUS10", category := "trip_pass",
      limitTravel := some 10, rates := [] } ]

/-- `TARIFFS`: the resolved catalog. -/
def TARIFFS : List TariffDefinition :=
  RAW_TARIFFS.map (fun tariff =>
    let limitTravel := tariff.limitTravel.getD 0
    let normalizedName := normalizeTitleLabel tariff.name
    { code := tariff.code, name := tariff.name, normalizedName := normalizedName,
      category := tariff.category, limitTravel := limitTravel,
      kind := inferTariffKind tariff.category limitTravel,
      rates := flattenTariffRates tariff.rates })

/-- `TARIFF_BY_NAME` as a lookup function (`new Map(entries)` keeps the
last binding for a duplicated key, hence the reversed search). -/
def TARIFF_BY_NAME (key : String) : Option TariffDefinition :=
  (TARIFFS.reverse.find? (fun tariff => tariff.normalizedName == key))

/-- `DEFAULT_TARIFF_NAME`. -/
def DEFAULT_TARIFF_NAME : String := normalizeTitleLabel FALLBACK_TARIFF_LABEL

/-- `FALLBACK_TARIFF`: the head of the catalog, else a synthetic default. -/
def FALLBACK_TARIFF : TariffDefinition :=
  (TARIFFS.get? 0).getD
    { code := "DEFAULT", name := FALLBACK_TARIFF_LABEL,
      normalizedName := DEFAULT_TARIFF_NAME, category := "coin_purse",
      limitTravel := 0, kind := TariffKind.wallet, rates := [] }

/-- `DEFAULT_TARIFF`. -/
def DEFAULT_TARIFF : TariffDefinition :=
  (TARIFF_BY_NAME DEFAULT_TARIFF_NAME).getD FALLBACK_TARIFF

/-- `TARIFF_ALIASES` as a partial map. -/
def TARIFF_ALIASES (key : String) : Option String :=
  if key = "MONEDERO CREDITRANS" ∨ key = "CREDITRANS" ∨
     key = "CREDITRANS BARIK" ∨ key = "—" then some DEFAULT_TARIFF_NAME
  else none

/-- `getTariffInfoFromTitle` (a `null`/`undefined` argument behaves as the
empty string through the falsiness check in `normalizeTitleLabel`). -/
def getTariffInfoFromTitle (title : String) : TariffDefinition :=
  let normalized := normalizeTitleLabel title
  let lookup := (TARIFF_ALIASES normalized).getD normalized
  (TARIFF_BY_NAME lookup).getD DEFAULT_TARIFF

/-- `getPassValidityDays`. -/
def getPassValidityDays (tariff : TariffDefinition) : Option Int :=
  if tariff.kind = TariffKind.wallet then none
  else if tariff.category = "monthly" ∨ tariff.category = "youthMonthly" then some 30
  else if tariff.kind = TariffKind.limitedPass then some 30
  else if tariff.kind = TariffKind.unlimitedPass then some 30
  else none

/-! ## Fare insight engine (historyDataTransforms.ts) -/

/-- `PassState`: the mutable per-tariff tracking record. -/
structure PassState where
  tariff : TariffDefinition
  kind : TariffKind
  totalTrips : Option Int
  remainingTrips : Option Int
  purchaseAmount : JsNumber
  purchaseDate : Int
  validDays : Option Int
  expiresAt : Option Int
  purchaseRecordKey : String
  ignoreNextEntry : Bool
deriving DecidableEq, Repr

/-- `PassSnapshot`: the immutable copy attached to insights. -/
structure PassSnapshot where
  tariff : TariffDefinition
  kind : TariffKind
  totalTrips : Option Int
  remainingTrips : Option Int
  purchaseAmount : JsNumber
  purchaseDate : Int
  validDays : Option Int
  expiresAt : Option Int
  purchaseRecordKey : String
deriving DecidableEq, Repr

/-- `snapshotPassState`. -/
def snapshotPassState (state : PassState) : PassSnapshot :=
  { tariff := state.tariff, kind := state.kind, totalTrips := state.totalTrips,
    remainingTrips := state.remainingTrips, purchaseAmount := state.purchaseAmount,
    purchaseDate := state.purchaseDate, validDays := state.validDays,
    expiresAt := state.expiresAt, purchaseRecordKey := state.purchaseRecordKey }

/-- The `limitedContext` payload of a `FareInsight`. -/
structure LimitedContext where
  remainingTrips : Option Int
  totalTrips : Option Int
  pricePerTrip : Option JsNumber
  savingsAmount : Option JsNumber
deriving DecidableEq, Repr

/-- `FareInsight`; `usageKind` keeps the source's string constants. -/
structure FareInsight where
  usageKind : String
  tariff : TariffDefinition
  passContext : Option PassSnapshot := none
  limitedContext : Option LimitedContext := none
  savingsAmount : Option JsNumber := none
  daysRemaining : Option Int := none
deriving DecidableEq, Repr

/-- `FareInsightsMap`: `Map<string, FareInsight>`. -/
def FareInsightsMap : Type := List (String × FareInsight)

/-- One iteration of the `sorted.forEach` body of `buildFareInsights`,
threading the insights map and the per-tariff pass-state map. -/
def fareStep (st : FareInsightsMap × List (String × PassState))
    (record : TransactionRecord) : FareInsightsMap × List (String × PassState) :=
  let insights := st.1
  let passStates := st.2
  let recordKey := getRecordKey record
  let tariff := getTariffInfoFromTitle record.titulo
  let recordDate := getRecordDate record
  if isWalletRechargeRecord record then
    (mapSet insights recordKey { usageKind := "wallet-recharge", tariff := tariff }, passStates)
  else if isTitleRechargeRecord record ∧ tariff.kind ≠ TariffKind.wallet then
    -- `tariff.limitTravel || null` : `0` is falsy.
    let totalTrips : Option Int :=
      if tariff.kind = TariffKind.limitedPass then
        (if tariff.limitTravel ≠ 0 then some tariff.limitTravel else none)
      else none
    let validDays := getPassValidityDays tariff
    let passState : PassState :=
      { tariff := tariff,
        kind := if tariff.kind = TariffKind.unlimitedPass then TariffKind.unlimitedPass
                else TariffKind.limitedPass,
        totalTrips := totalTrips,
        remainingTrips := totalTrips,
        purchaseAmount := record.importe,
        purchaseDate := recordDate,
        validDays := validDays,
        -- `validDays ? addDays(...) : null` : `0` is falsy.
        expiresAt := match validDays with
          | some d => if d ≠ 0 then some (addDays recordDate d) else none
          | none => none,
        purchaseRecordKey := recordKey,
        ignoreNextEntry := tariff.kind = TariffKind.limitedPass }
    (mapSet insights recordKey
       { usageKind := "title-recharge", tariff := tariff,
         passContext := some (snapshotPassState passState) },
     mapSet passStates tariff.normalizedName passState)
  else
    let currentPass := mapGet passStates tariff.normalizedName
    let isEntry := isEntryValidation record || isSingleValidation record
    -- `typeof record.importe === 'number'` is identically true in the model.
    let rideAmount : Option JsNumber := some (jsAbs record.importe)
    let rideSavings : Option JsNumber :=
      match currentPass with
      | some _ => if isEntry then rideAmount else none
      | none => none
    let daysRemaining : Option Int :=
      match currentPass with
      | some cp =>
        -- `currentPass?.expiresAt ?` : `expiresAt` is a `Date` object and
        -- therefore truthy exactly when non-null.
        match cp.expiresAt with
        | some expiry => some (max (jsCeilDiv (expiry - recordDate) DAY_MS) 0)
        | none => none
      | none => none
    match currentPass with
    | some cp =>
      if cp.kind = TariffKind.limitedPass then
        let totalTrips := cp.totalTrips
        let pricePerTrip : Option JsNumber :=
          match totalTrips with
          | some t => if t > 0 then some (cp.purchaseAmount.divByPosInt t) else none
          | none => none
        let cpAfter : PassState :=
          if isEntry ∧ cp.remainingTrips.isSome then
            (if cp.ignoreNextEntry then { cp with ignoreNextEntry := false }
             else { cp with remainingTrips := cp.remainingTrips.map (fun r => max (r - 1) 0) })
          else cp
        let limitedContext : LimitedContext :=
          { remainingTrips := cpAfter.remainingTrips, totalTrips := totalTrips,
            pricePerTrip := pricePerTrip, savingsAmount := rideSavings }
        (mapSet insights recordKey
           { usageKind := "ride", tariff := tariff,
             passContext := some (snapshotPassState cpAfter),
             limitedContext := some limitedContext,
             savingsAmount := rideSavings, daysRemaining := daysRemaining },
         mapSet passStates tariff.normalizedName cpAfter)
      else
        (mapSet insights recordKey
           { usageKind := "ride", tariff := tariff,
             passContext := some (snapshotPassState cp),
             savingsAmount := rideSavings, daysRemaining := daysRemaining },
         passStates)
    | none =>
      (mapSet insights recordKey
         { usageKind := "ride", tariff := tariff,
           savingsAmount := rideSavings, daysRemaining := daysRemaining },
       passStates)

/-- `buildFareInsights`, in store-passing form: the second component is
the caller-visible array after the call.  The source sorts the spread
copy `[...records]`, so the caller's array is returned unchanged. -/
def buildFareInsightsSt (records : List TransactionRecord) :
    FareInsightsMap × List TransactionRecord :=
  let sorted := jsSort (fun a b => getRecordDate a < getRecordDate b) records
  ((sorted.foldl fareStep ([], [])).1, records)

/-- `buildFareInsights` (result component). -/
def buildFareInsights (records : List TransactionRecord) : FareInsightsMap :=
  (buildFareInsightsSt records).1

/-! ## Journey builder (historyDataTransforms.ts) -/

/-- `JourneyBlock`; the source's `end` field is called `stop` because
`end` is a Lean keyword. -/
structure JourneyBlock where
  id : String
  kind : String
  start : TransactionRecord
  stop : Option TransactionRecord
  durationMinutes : Option Int
  records : List TransactionRecord
deriving DecidableEq, Repr

/-- The `pushSingle` closure of `buildJourneyBlocks`. -/
def pushSingle (record : TransactionRecord) (reason : String) : JourneyBlock :=
  { id := "single-" ++ reason ++ "-" ++ toString record.page ++ "-" ++
      toString record.cont ++ "-" ++ record.timestamp,
    kind := "viaje-unico", start := record, stop := none,
    durationMinutes := none, records := [record] }

/-- The `recarga` journey pushed for a recharge record. -/
def recargaBlock (record : TransactionRecord) : JourneyBlock :=
  { id := "recarga-" ++ toString record.page ++ "-" ++ toString record.cont ++
      "-" ++ record.timestamp,
    kind := "recarga", start := record, stop := none,
    durationMinutes := none, records := [record] }

/-- The `otros` journey pushed for an unrecognized record. -/
def otrosBlock (record : TransactionRecord) : JourneyBlock :=
  { id := "otros-" ++ toString record.page ++ "-" ++ toString record.cont ++
      "-" ++ record.timestamp,
    kind := "otros", start := record, stop := none,
    durationMinutes := none, records := [record] }

/-- The paired `viaje` journey.  `Math.round(diff / 60000)` is the exact
rounding `jsRound` of the exact quotient. -/
def viajeBlock (pendingEntry record : TransactionRecord) (diff : Int) : JourneyBlock :=
  { id := "viaje-" ++ toString pendingEntry.page ++ "-" ++ toString record.page ++
      "-" ++ record.timestamp,
    kind := "viaje", start := pendingEntry, stop := some record,
    durationMinutes := some (max 1 (jsRound ((JsNumber.ofInt diff).divByPosInt 60000))),
    records := [pendingEntry, record] }

/-- One iteration of the `sorted.forEach` body of `buildJourneyBlocks`,
threading the emitted journeys and the single pending-entry slot. -/
def journeyStep (st : List JourneyBlock × Option TransactionRecord)
    (record : TransactionRecord) : List JourneyBlock × Option TransactionRecord :=
  let journeys := st.1
  let pendingEntry := st.2
  if isRecargaTransaction record then
    (journeys ++ [recargaBlock record], pendingEntry)
  else if isSingleValidation record then
    (journeys ++ [pushSingle record "unica"], pendingEntry)
  else if isEntryValidation record then
    (match pendingEntry with
     | some pending => journeys ++ [pushSingle pending "entrada-sin-salida"]
     | none => journeys,
     some record)
  else if isExitValidation record then
    match pendingEntry with
    | some pending =>
      let diff := getRecordDate record - getRecordDate pending
      if diff < 0 then
        (journeys ++ [pushSingle pending "entrada-desorden",
                      pushSingle record "salida-desorden"], none)
      else if diff > TEN_HOURS_MS then
        (journeys ++ [pushSingle pending "entrada-10h",
                      pushSingle record "salida-10h"], none)
      else
        (journeys ++ [viajeBlock pending record diff], none)
    | none => (journeys ++ [pushSingle record "salida-suelta"], pendingEntry)
  else
    (journeys ++ [otrosBlock record], pendingEntry)

/-- `buildJourneyBlocks`, in store-passing form (second component: the
caller-visible array, unchanged because the source sorts the spread
copy). -/
def buildJourneyBlocksSt (records : List TransactionRecord) :
    List JourneyBlock × List TransactionRecord :=
  let sorted := jsSort (fun a b => getRecordDate a < getRecordDate b) records
  let folded := sorted.foldl journeyStep ([], none)
  let flushed := folded.1 ++
    (match folded.2 with
     | some pending => [pushSingle pending "entrada-final"]
     | none => [])
  (jsSort (fun a b => getRecordDate b.start < getRecordDate a.start) flushed, records)

/-- `buildJourneyBlocks` (result component). -/
def buildJourneyBlocks (records : List TransactionRecord) : List JourneyBlock :=
  (buildJourneyBlocksSt records).1

/-! ## Journey statistics (historyDataTransforms.ts) -/

/-- `JourneyStats` (counter fields are integer-valued JS numbers). -/
structure JourneyStats where
  rides : Int
  walletRecharges : Int
  titlePurchases : Int
  savings : JsNumber
  spent : JsNumber
  travelMinutes : Int
deriving DecidableEq, Repr

/-- `createJourneyStats` / `EMPTY_JOURNEY_STATS`. -/
def createJourneyStats : JourneyStats :=
  { rides := 0, walletRecharges := 0, titlePurchases := 0,
    savings := 0, spent := 0, travelMinutes := 0 }

/-- The per-record body of the inner `journey.records.forEach` loop of
`computeJourneyStats`. -/
def statsRecordStep (fareInsights : FareInsightsMap) (stats : JourneyStats)
    (record : TransactionRecord) : JourneyStats :=
  let insight := mapGet fareInsights (getRecordKey record)
  let stats :=
    match insight.bind (fun i => i.savingsAmount) with
    | some sv => { stats with savings := stats.savings.add (jsMax 0 sv) }
    | none => stats
  -- `typeof record.importe === 'number'` is identically true in the model.
  if (insight.bind (fun i => i.passContext)).isNone then
    { stats with spent := stats.spent.add (jsAbs record.importe) }
  else stats

/-- The per-journey body of `computeJourneyStats`. -/
def statsStep (fareInsights : FareInsightsMap) (stats : JourneyStats)
    (journey : JourneyBlock) : JourneyStats :=
  if journey.kind = "recarga" then
    let fare := mapGet fareInsights (getRecordKey journey.start)
    let stats :=
      if (fare.map (fun f => f.usageKind)) = some "title-recharge" then
        { stats with titlePurchases := stats.titlePurchases + 1 }
      else
        { stats with walletRecharges := stats.walletRecharges + 1 }
    { stats with spent := stats.spent.add (jsAbs journey.start.importe) }
  else if journey.kind = "viaje" ∨ journey.kind = "viaje-unico" then
    let stats := { stats with rides := stats.rides + 1 }
    let stats :=
      if journey.kind = "viaje" then
        match journey.durationMinutes with
        | some duration => { stats with travelMinutes := stats.travelMinutes + duration }
        | none => stats
      else stats
    journey.records.foldl (statsRecordStep fareInsights) stats
  else stats

/-- `computeJourneyStats`. -/
def computeJourneyStats (journeys : List JourneyBlock)
    (fareInsights : FareInsightsMap) : JourneyStats :=
  journeys.foldl (statsStep fareInsights) createJourneyStats

/-- The field-wise sum used by the `reduce` combiner of
`sumJourneyStats`. -/
def addStats (acc stats : JourneyStats) : JourneyStats :=
  { rides := acc.rides + stats.rides,
    walletRecharges := acc.walletRecharges + stats.walletRecharges,
    titlePurchases := acc.titlePurchases + stats.titlePurchases,
    savings := acc.savings.add stats.savings,
    spent := acc.spent.add stats.spent,
    travelMinutes := acc.travelMinutes + stats.travelMinutes }

/-- `sumJourneyStats`. -/
def sumJourneyStats (statsList : List JourneyStats) : JourneyStats :=
  statsList.foldl addStats createJourneyStats

/-- `statsRecordStep` with the two monetary accumulations (`savings +=`,
`spent +=`) carried out at IEEE binary64 precision, as the JS engine
executes them; every other field is untouched by this loop. -/
def statsRecordStepF64 (fareInsights : FareInsightsMap) (stats : JourneyStats)
    (record : TransactionRecord) : JourneyStats :=
  let insight := mapGet fareInsights (getRecordKey record)
  let stats :=
    match insight.bind (fun i => i.savingsAmount) with
    | some sv => { stats with savings := f64Add stats.savings (jsMax 0 sv) }
    | none => stats
  if (insight.bind (fun i => i.passContext)).isNone then
    { stats with spent := f64Add stats.spent (jsAbs record.importe) }
  else stats

/-- `statsStep` at IEEE binary64 precision for the monetary fields; the
counter fields and `travelMinutes` stay integer-valued, where double
addition is exact at these magnitudes. -/
def statsStepF64 (fareInsights : FareInsightsMap) (stats : JourneyStats)
    (journey : JourneyBlock) : JourneyStats :=
  if journey.kind = "recarga" then
    let fare := mapGet fareInsights (getRecordKey journey.start)
    let stats :=
      if (fare.map (fun f => f.usageKind)) = some "title-recharge" then
        { stats with titlePurchases := stats.titlePurchases + 1 }
      else
        { stats with walletRecharges := stats.walletRecharges + 1 }
    { stats with spent := f64Add stats.spent (jsAbs journey.start.importe) }
  else if journey.kind = "viaje" ∨ journey.kind = "viaje-unico" then
    let stats := { stats with rides := stats.rides + 1 }
    let stats :=
      if journey.kind = "viaje" then
        match journey.durationMinutes with
        | some duration => { stats with travelMinutes := stats.travelMinutes + duration }
        | none => stats
      else stats
    journey.records.foldl (statsRecordStepF64 fareInsights) stats
  else stats

/-- `computeJourneyStats` with the monetary accumulation at binary64
precision — the bit-accurate semantics of the source on an engine with
IEEE doubles. -/
def computeJourneyStatsF64 (journeys : List JourneyBlock)
    (fareInsights : FareInsightsMap) : JourneyStats :=
  journeys.foldl (statsStepF64 fareInsights) createJourneyStats

/-- The `sumJourneyStats` combiner at binary64 precision on the monetary
fields. -/
def addStatsF64 (acc stats : JourneyStats) : JourneyStats :=
  { rides := acc.rides + stats.rides,
    walletRecharges := acc.walletRecharges + stats.walletRecharges,
    titlePurchases := acc.titlePurchases + stats.titlePurchases,
    savings := f64Add acc.savings stats.savings,
    spent := f64Add acc.spent stats.spent,
    travelMinutes := acc.travelMinutes + stats.travelMinutes }

/-- `sumJourneyStats` at binary64 precision. -/
def sumJourneyStatsF64 (statsList : List JourneyStats) : JourneyStats :=
  statsList.foldl addStatsF64 createJourneyStats

/-- The integer-valued fields of a `JourneyStats` (whose double
arithmetic is exact at these magnitudes). -/
def intFields (stats : JourneyStats) : Int × Int × Int × Int :=
  (stats.rides, stats.walletRecharges, stats.titlePurchases, stats.travelMinutes)

/-! ## Transit station graph and path finder (MetroDiagram.tsx)

The station layout data `files/lineasmetro.json` is not under `src/`;
the rosters below are modelled from the spec.  The graph-building and
path-finding code mirrors the source exactly. -/

/-- Modelled from the spec: Line 1 branch stations (before the trunk),
in ascending weight order. -/
def L1_CODES : List String := ["PLE", "SOP", "LAR"]

/-- Modelled from the spec: shared trunk stations, in ascending weight
order; the trunk contains `CAV` (Casco Viejo), the L3 connection pivot
used by the source. -/
def TRUNK_CODES : List String := ["SIN", "MOY", "CAV", "ETX"]

/-- Modelled from the spec: Line 2 stations before the trunk. -/
def LINE2_BEFORE_CODES : List String := ["KAB", "POR"]

/-- Modelled from the spec: Line 2 stations after the trunk. -/
def LINE2_AFTER_CODES : List String := ["ARZ", "BAS"]

/-- Modelled from the spec: Line 3 stations; `ZZC`
(Zazpikaleak/Casco Viejo) is the pivot the source locates by name. -/
def L3_CODES : List String := ["MAT", "ZZC", "KUK"]

/-- The L3 pivot code (`L3_PIVOT_POINT.code`). -/
def L3_PIVOT_CODE : String := "ZZC"

/-- All station codes in the `ALL_POSITIONED_STATIONS` order
(`STATION_BY_CODE` keeps first occurrences; the modelled codes are
pairwise distinct). -/
def STATION_CODES : List String :=
  L1_CODES ++ TRUNK_CODES ++ LINE2_BEFORE_CODES ++ LINE2_AFTER_CODES ++ L3_CODES

/-- `STATION_BY_CODE.has`. -/
def hasStation (code : String) : Bool := STATION_CODES.contains code

/-- The adjacency structure `STATION_GRAPH`: insertion-ordered nodes,
each with an insertion-ordered neighbour set. -/
abbrev MetroAdj : Type := List (String × List String)

/-- `STATION_GRAPH.get`. -/
def adjGet (adj : MetroAdj) (code : String) : Option (List String) :=
  (adj.find? (fun p => p.1 == code)).map (·.2)

/-- `ensureGraphNode`. -/
def ensureGraphNode (adj : MetroAdj) (code : String) : MetroAdj :=
  if !hasStation code then adj
  else if (adjGet adj code).isSome then adj
  else adj ++ [(code, [])]

/-- Insert a neighbour into a node's `Set` (dedup, insertion order). -/
def adjInsertNeighbor (adj : MetroAdj) (code neighbor : String) : MetroAdj :=
  adj.map (fun p =>
    if p.1 == code then
      (p.1, if p.2.contains neighbor then p.2 else p.2 ++ [neighbor])
    else p)

/-- `addEdge`. -/
def addEdge (adj : MetroAdj) (a b : String) : MetroAdj :=
  if a = b then adj
  else if !hasStation a || !hasStation b then adj
  else
    let adj := ensureGraphNode (ensureGraphNode adj a) b
    adjInsertNeighbor (adjInsertNeighbor adj a b) b a

/-- `addEdge` on optional endpoints (the source's `?.code` accesses). -/
def addEdgeOpt (adj : MetroAdj) (a b : Option String) : MetroAdj :=
  match a, b with
  | some x, some y => addEdge adj x y
  | _, _ => adj

/-- `connectSequence`. -/
def connectSequence (adj : MetroAdj) : List String → MetroAdj
  | [] => adj
  | [_] => adj
  | a :: b :: rest => connectSequence (addEdge adj a b) (b :: rest)

/-- `STATION_GRAPH`, built exactly in the source's order: per-line
sequences, the two line-to-trunk junctions, the trunk-to-line-2
continuation, and the L3 pivot to `CAV`. -/
def STATION_GRAPH : MetroAdj :=
  let g : MetroAdj := []
  let g := connectSequence g L1_CODES
  let g := connectSequence g TRUNK_CODES
  let g := connectSequence g LINE2_BEFORE_CODES
  let g := connectSequence g LINE2_AFTER_CODES
  let g := connectSequence g L3_CODES
  let g := addEdgeOpt g L1_CODES.getLast? TRUNK_CODES.head?
  let g := addEdgeOpt g LINE2_BEFORE_CODES.getLast? TRUNK_CODES.head?
  let g := addEdgeOpt g TRUNK_CODES.getLast? LINE2_AFTER_CODES.head?
  -- `if (TRUNK_CASCO && L3_PIVOT_CODE) addEdge(L3_PIVOT_CODE, TRUNK_CASCO.code)`
  if TRUNK_CODES.contains "CAV" then addEdge g L3_PIVOT_CODE "CAV" else g

/-- Neighbour iteration of `STATION_GRAPH.get(code)?.forEach`. -/
def metroNeighbors (code : String) : List String :=
  (adjGet STATION_GRAPH code).getD []

/-- The breadth-first loop of `findMetroPath`.  Fuel-indexed: each queue
entry is processed once and every station is enqueued at most once, so
any fuel above `STATION_CODES.length + 1` is never exhausted; `none`
models the `while` loop ending with an empty queue. -/
def bfsLoop (target : String) : Nat → List (String × List String) → List String →
    Option (List String)
  | 0, _, _ => none
  | _ + 1, [], _ => none
  | fuel + 1, (code, path) :: rest, visited =>
    if code = target then some path
    else
      let next := (metroNeighbors code).foldl
        (fun (st : List String × List (String × List String)) neighbor =>
          if st.1.contains neighbor then st
          else (st.1 ++ [neighbor], st.2 ++ [(neighbor, path ++ [neighbor])]))
        (visited, rest)
      bfsLoop target fuel next.2 next.1

/-- `findMetroPath`. -/
def findMetroPath (fromCode toCode : String) : List String :=
  if fromCode = "" ∨ toCode = "" then []
  else if ¬ hasStation fromCode ∨ ¬ hasStation toCode then
    (if hasStation fromCode then [fromCode] else [])
  else if fromCode = toCode then [fromCode]
  else
    match bfsLoop toCode 100 [(fromCode, [fromCode])] [fromCode] with
    | some path => path
    | none => [fromCode]

/-! ## Table extractor (pdfParser.ts) -/

/-- The ten expected columns (`ColumnKey`). -/
inductive ColumnKey
  | cont | fecha | transaccion | operador | equipo
  | importe | saldo | titulo | perfil | etapa
deriving DecidableEq, Repr

/-- `COLUMN_DEFS`: column keys with their header-label patterns (all the
label regexes are case-insensitive literals). -/
def COLUMN_DEFS : List (ColumnKey × String) :=
  [ (ColumnKey.cont, "CONT"), (ColumnKey.fecha, "FECHA"),
    (ColumnKey.transaccion, "TRANSACC"), (ColumnKey.operador, "OPERAD"),
    (ColumnKey.equipo, "EQUIPO"), (ColumnKey.importe, "IMPORTE"),
    (ColumnKey.saldo, "SALDO"), (ColumnKey.titulo, "TITULO"),
    (ColumnKey.perfil, "PERFIL"), (ColumnKey.etapa, "ETAPA") ]

/-- A positioned text fragment within a reconstructed line
(`LineSegment`). -/
structure LineSegment where
  x : JsNumber
  text : String
deriving DecidableEq, Repr

/-- A reconstructed text line (`Line`). -/
structure Line where
  y : JsNumber
  segments : List LineSegment
deriving DecidableEq, Repr

/-- `lineToString`. -/
def lineToString (line : Line) : String :=
  strTrim (joinWith " " (line.segments.map (fun segment => segment.text)))

/-- The header predicate of `findHeaderIndex`: note the case-sensitive
`String.prototype.includes` tests. -/
def isHeaderLine (line : Line) : Bool :=
  let text := lineToString line
  strContains text "CONT" && strContains text "FECHA" && strContains text "IMPORTE"

/-- `findHeaderIndex` (JS `findIndex` returns `-1` when no line
matches). -/
def findHeaderIndex (lines : List Line) : Int :=
  match lines.findIdx? isHeaderLine with
  | some idx => (idx : Int)
  | none => -1

/-- The continuation-header predicate of `skipHeaderBlock`:
`text && /TRANS$/i.test(text) && !/\d/.test(text)`. -/
def isContinuationHeaderLine (line : Line) : Bool :=
  let text := lineToString line
  text ≠ "" && strEndsWithCI text "TRANS" && !(text.data.any isDigitChar)

/-- Length of the initial run of continuation-header lines (the body of
the `while` loop in `skipHeaderBlock`). -/
def continuationRun : List Line → Nat
  | [] => 0
  | line :: rest =>
    if isContinuationHeaderLine line then continuationRun rest + 1 else 0

/-- `skipHeaderBlock`. -/
def skipHeaderBlock (lines : List Line) (headerIndex : Nat) : Nat :=
  headerIndex + 1 + continuationRun (lines.drop (headerIndex + 1))

/-- A column boundary (`ColumnBoundary`); `stop` (the source's `end`, a
Lean keyword) is `none` for `Number.POSITIVE_INFINITY`. -/
structure ColumnBoundary where
  key : ColumnKey
  start : JsNumber
  stop : Option JsNumber
deriving DecidableEq, Repr

/-- First phase of `deriveColumnBoundaries`: the start positions. -/
def boundaryStarts (orderedSegments : List LineSegment) : List ColumnBoundary :=
  COLUMN_DEFS.foldl (fun (boundaries : List ColumnBoundary) column =>
    let matched := orderedSegments.find? (fun segment => strContainsCI segment.text column.2)
    let fallbackStart : JsNumber :=
      match boundaries.getLast? with
      | some previous => previous.start.add (JsNumber.ofInt 60)
      | none => 0
    let start := match matched with
      | some m => m.x
      | none => fallbackStart
    boundaries ++ [{ key := column.1, start := start, stop := none }]) []

/-- Second phase of `deriveColumnBoundaries`: each column ends a gap of 8
before the next start when that leaves positive width, else falls back to
the default width 60; the last column is unbounded. -/
def setBoundaryEnds : List ColumnBoundary → List ColumnBoundary
  | [] => []
  | [b] => [{ b with stop := none }]
  | b :: b2 :: rest =>
    let tentativeEnd := b2.start.sub (JsNumber.ofInt 8)
    let e := if JsNumber.ltb b.start tentativeEnd then tentativeEnd
             else b.start.add (JsNumber.ofInt 60)
    { b with stop := some e } :: setBoundaryEnds (b2 :: rest)

/-- `deriveColumnBoundaries`. -/
def deriveColumnBoundaries (headerLine : Line) : List ColumnBoundary :=
  setBoundaryEnds (boundaryStarts
    (jsSort (fun a b => JsNumber.ltb a.x b.x) headerLine.segments))

/-- An accumulated raw row: the per-column strings
(`Record<ColumnKey, string>` with `''` for absent). -/
structure RawRow where
  cont : String
  fecha : String
  transaccion : String
  operador : String
  equipo : String
  importe : String
  saldo : String
  titulo : String
  perfil : String
  etapa : String
deriving DecidableEq, Repr

/-- `initRow`. -/
def initRow : RawRow :=
  { cont := "", fecha := "", transaccion := "", operador := "", equipo := "",
    importe := "", saldo := "", titulo := "", perfil := "", etapa := "" }

/-- Field projection by column key. -/
def rowGet (row : RawRow) : ColumnKey → String
  | ColumnKey.cont => row.cont
  | ColumnKey.fecha => row.fecha
  | ColumnKey.transaccion => row.transaccion
  | ColumnKey.operador => row.operador
  | ColumnKey.equipo => row.equipo
  | ColumnKey.importe => row.importe
  | ColumnKey.saldo => row.saldo
  | ColumnKey.titulo => row.titulo
  | ColumnKey.perfil => row.perfil
  | ColumnKey.etapa => row.etapa

/-- Field update by column key. -/
def rowSet (row : RawRow) (key : ColumnKey) (value : String) : RawRow :=
  match key with
  | ColumnKey.cont => { row with cont := value }
  | ColumnKey.fecha => { row with fecha := value }
  | ColumnKey.transaccion => { row with transaccion := value }
  | ColumnKey.operador => { row with operador := value }
  | ColumnKey.equipo => { row with equipo := value }
  | ColumnKey.importe => { row with importe := value }
  | ColumnKey.saldo => { row with saldo := value }
  | ColumnKey.titulo => { row with titulo := value }
  | ColumnKey.perfil => { row with perfil := value }
  | ColumnKey.etapa => { row with etapa := value }

/-- `hasData`. -/
def hasData (row : RawRow) : Bool :=
  COLUMN_DEFS.any (fun column => strTrim (rowGet row column.1) ≠ "")

/-- Letter class of `isLetter` (ASCII letters plus the listed accented
letters). -/
def isLetterChar (c : Char) : Bool :=
  ('A' ≤ c && c ≤ 'Z') || ('a' ≤ c && c ≤ 'z') ||
  c = 'Á' || c = 'É' || c = 'Í' || c = 'Ó' || c = 'Ú' || c = 'Ü' || c = 'Ñ' ||
  c = 'á' || c = 'é' || c = 'í' || c = 'ó' || c = 'ú' || c = 'ü' || c = 'ñ'

/-- `isLower`. -/
def isLowerChar (c : Char) : Bool :=
  ('a' ≤ c && c ≤ 'z') ||
  c = 'á' || c = 'é' || c = 'í' || c = 'ó' || c = 'ú' || c = 'ü' || c = 'ñ'

/-- `isUpper`. -/
def isUpperChar (c : Char) : Bool :=
  ('A' ≤ c && c ≤ 'Z') ||
  c = 'Á' || c = 'É' || c = 'Í' || c = 'Ó' || c = 'Ú' || c = 'Ü' || c = 'Ñ'

/-- `UPPERCASE_JOIN_EXCEPTIONS`. -/
def UPPERCASE_JOIN_EXCEPTIONS : List String :=
  ["DE", "DEL", "LA", "LAS", "LOS", "LO", "EL", "DA", "DO", "Y", "AL"]

/-- The uppercase class of the token-normalising regex
`[^A-ZÁÉÍÓÚÑ]` (note: the source's class omits `Ü`). -/
def isJoinTokenChar (c : Char) : Bool :=
  ('A' ≤ c && c ≤ 'Z') || c = 'Á' || c = 'É' || c = 'Í' || c = 'Ó' || c = 'Ú' || c = 'Ñ'

/-- `shouldSkipSpace`. -/
def shouldSkipSpace (base addition : String) : Bool :=
  if base = "" ∨ addition = "" then false
  else
    match base.data.getLast?, addition.data.head? with
    | some lastChar, some firstChar =>
      if isLetterChar lastChar && firstChar = '/' then true
      else if lastChar = '/' && isLetterChar firstChar then true
      else if isLetterChar lastChar && firstChar = '-' then true
      else if isLetterChar lastChar && isLowerChar firstChar then true
      else if isLetterChar lastChar && isUpperChar firstChar then
        let firstToken := ((splitWsRuns (strTrimStart addition)).get? 0).getD ""
        let normalizedToken : String := ⟨firstToken.data.filter isJoinTokenChar⟩
        normalizedToken ≠ "" && normalizedToken.data.length ≤ 2 &&
          !(UPPERCASE_JOIN_EXCEPTIONS.contains normalizedToken)
      else false
    | _, _ => false

/-- `appendSegment`. -/
def appendSegment (base addition : String) : String :=
  if base = "" then addition
  else if addition = "" then base
  else
    let trimmedBase := strTrimEnd base
    let trimmedAddition := strTrimStart addition
    let glue := if shouldSkipSpace trimmedBase trimmedAddition then "" else " "
    strTrim (collapseWs (trimmedBase ++ glue ++ trimmedAddition))

/-- Boundary search of `bucketize`: the first boundary whose range
contains `x`, the first one reaching down to negative infinity. -/
def findBoundaryFor (boundaries : List ColumnBoundary) (x : JsNumber) :
    Option ColumnBoundary :=
  let rec go (first : Bool) : List ColumnBoundary → Option ColumnBoundary
    | [] => none
    | b :: rest =>
      let lowerOk := if first then true else JsNumber.leb b.start x
      let upperOk := match b.stop with
        | some e => JsNumber.ltb x e
        | none => true
      if lowerOk && upperOk then some b else go false rest
  go true boundaries

/-- `bucketize`: distribute a line's fragments over the column
boundaries (within a bucket, fragments join with a plain space). -/
def bucketize (line : Line) (boundaries : List ColumnBoundary) : RawRow :=
  line.segments.foldl (fun (result : RawRow) segment =>
    let normalized := strTrim segment.text
    if normalized = "" then result
    else
      match (findBoundaryFor boundaries segment.x).orElse (fun _ => boundaries.getLast?) with
      | some column =>
        let existing := rowGet result column.key
        rowSet result column.key
          (if existing = "" then normalized else existing ++ " " ++ normalized)
      | none => result) initRow

/-- Merge one bucketized line into the current row
(`current[key] = current[key] ? appendSegment(current[key], addition) : addition`). -/
def mergeRow (current bucket : RawRow) : RawRow :=
  COLUMN_DEFS.foldl (fun (row : RawRow) column =>
    let addition := rowGet bucket column.1
    if addition = "" then row
    else
      let existing := rowGet row column.1
      rowSet row column.1
        (if existing = "" then addition else appendSegment existing addition)) current

/-- One iteration of the line loop of `collectRawRows`. -/
def collectStep (boundaries : List ColumnBoundary)
    (st : List RawRow × Option RawRow) (line : Line) :
    List RawRow × Option RawRow :=
  let bucket := bucketize line boundaries
  let contText := digitsOnlyStr bucket.cont
  let startsNewRow := contText ≠ "" && contText.data.all isDigitChar
  let st :=
    if startsNewRow then
      (match st.2 with
       | some current => if hasData current then st.1 ++ [current] else st.1
       | none => st.1,
       some initRow)
    else st
  match st.2 with
  | none => (st.1, none)
  | some current => (st.1, some (mergeRow current bucket))

/-- `collectRawRows`. -/
def collectRawRows (lines : List Line) (boundaries : List ColumnBoundary) :
    List RawRow :=
  let folded := lines.foldl (collectStep boundaries) ([], none)
  folded.1 ++
    (match folded.2 with
     | some current => if hasData current then [current] else []
     | none => [])

/-- Date-pattern match of `DATE_SECTION` (`\d{2}\/\d{2}\/\d{4}`) at the
head of a character list. -/
def matchDateAt : List Char → Option (List Char)
  | d1 :: d2 :: '/' :: m1 :: m2 :: '/' :: y1 :: y2 :: y3 :: y4 :: _ =>
    if [d1, d2, m1, m2, y1, y2, y3, y4].all isDigitChar then
      some [d1, d2, '/', m1, m2, '/', y1, y2, y3, y4]
    else none
  | _ => none

/-- Time-pattern match of `TIME_SECTION` (`\d{2}:\d{2}:\d{2}`) at the
head of a character list. -/
def matchTimeAt : List Char → Option (List Char)
  | h1 :: h2 :: ':' :: m1 :: m2 :: ':' :: s1 :: s2 :: _ =>
    if [h1, h2, m1, m2, s1, s2].all isDigitChar then
      some [h1, h2, ':', m1, m2, ':', s1, s2]
    else none
  | _ => none

/-- Left-to-right unanchored regex scan: the first match of `f`. -/
def scanFor (f : List Char → Option (List Char)) : List Char → Option (List Char)
  | [] => f []
  | c :: rest =>
    match f (c :: rest) with
    | some r => some r
    | none => scanFor f rest

/-- `fechaRaw.match(DATE_SECTION)`. -/
def findDateSection (s : String) : Option String :=
  (scanFor matchDateAt s.data).map (fun l => ⟨l⟩)

/-- `fechaRaw.match(TIME_SECTION)`. -/
def findTimeSection (s : String) : Option String :=
  (scanFor matchTimeAt s.data).map (fun l => ⟨l⟩)

/-- `toIso`. -/
def toIso (date time : String) : String :=
  match strSplitOnChar '/' date with
  | day :: month :: year :: _ =>
    if day = "" ∨ month = "" ∨ year = "" then ""
    else year ++ "-" ++ month ++ "-" ++ day ++ "T" ++ time
  | _ => ""

/-- `clean`. -/
def clean (value : String) : String := strTrim (collapseWs value)

/-- JS `parseFloat` on the normalised amount string, as an exact value:
optional sign, digits, optional fraction, optional exponent; `none` for
no parsable numeric prefix (JS `NaN`).  Unlike IEEE `parseFloat` the
value is exact; the `Number.isFinite` guard in `parseAmount` can
therefore never see an infinity here, which only diverges from JS on
astronomically large inputs no monetary column contains. -/
def jsParseFloat (s : String) : Option JsNumber :=
  let afterSign : Int × List Char :=
    match s.data with
    | '-' :: rest => (-1, rest)
    | '+' :: rest => (1, rest)
    | cs => (1, cs)
  let ip := afterSign.2.takeWhile isDigitChar
  let afterInt := afterSign.2.dropWhile isDigitChar
  let fpRest : List Char × List Char :=
    match afterInt with
    | '.' :: rest => (rest.takeWhile isDigitChar, rest.dropWhile isDigitChar)
    | _ => ([], afterInt)
  let fp := fpRest.1
  if ip.isEmpty ∧ fp.isEmpty then none
  else
    let mantissa : Int := afterSign.1 * (digitsToNat (ip ++ fp) : Int)
    let base : JsNumber := ⟨mantissa, (10 : Int) ^ fp.length⟩
    match fpRest.2 with
    | e :: rest =>
      if e = 'e' ∨ e = 'E' then
        let expSign : Int × List Char :=
          match rest with
          | '-' :: r => (-1, r)
          | '+' :: r => (1, r)
          | r => (1, r)
        let ed := expSign.2.takeWhile isDigitChar
        if ed.isEmpty then some base
        else
          let e := expSign.1 * (digitsToNat ed : Int)
          if e ≥ 0 then some ⟨base.num * 10 ^ e.toNat, base.den⟩
          else some ⟨base.num, base.den * 10 ^ (-e).toNat⟩
      else some base
    | [] => some base

/-- The normalisation chain of `parseAmount`:
`value.replace(/\s+/g, '').replace(/\./g, '').replace(',', '.')`. -/
def normalizeAmountText (value : String) : String :=
  ⟨replaceFirstChar ',' '.' ((removeWs value).data.filter (fun c => c ≠ '.'))⟩

/-- `parseAmount`: `0` for a falsy argument, for anything whose
normalisation does not parse as a number (`NaN`), and — through the
`Number.isFinite` guard — for parses whose magnitude overflows binary64
to infinity. -/
def parseAmount (value : String) : JsNumber :=
  if value = "" then 0
  else
    match jsParseFloat (normalizeAmountText value) with
    | some numeric => if jsIsFiniteDouble numeric then numeric else 0
    | none => 0

/-- `normalizeRow`: `none` models the dropped row (`cont` unparseable). -/
def normalizeRow (row : RawRow) (page : Nat) : Option TransactionRecord :=
  let contDigits := digitsOnlyStr row.cont
  if contDigits = "" then none
  else
    let fechaRaw := strTrim (collapseWs row.fecha)
    let fecha := (findDateSection fechaRaw).getD ""
    let hora := (findTimeSection fechaRaw).getD ""
    let timestamp := if fecha ≠ "" ∧ hora ≠ "" then toIso fecha hora else ""
    some
      { cont := digitsToNat contDigits.data,
        fecha := fecha, hora := hora, timestamp := timestamp,
        transaccion := clean row.transaccion,
        operador := clean row.operador,
        equipo := clean row.equipo,
        importe := parseAmount row.importe,
        saldo := parseAmount row.saldo,
        titulo := clean row.titulo,
        perfil := clean row.perfil,
        etapa := clean row.etapa,
        page := page }

/-- The per-page body of the loop in `extractTransactionsFromData`, from
reconstructed lines to this page's records: a page without a header
contributes no records (`continue`); otherwise rows are collected below
the header block and each parseable row is pushed. -/
def extractPageRecords (lines : List Line) (pageNumber : Nat) :
    List TransactionRecord :=
  match lines.findIdx? isHeaderLine with
  | none => []
  | some headerIndex =>
    let headerLine := (lines.get? headerIndex).getD { y := 0, segments := [] }
    let columnBoundaries := deriveColumnBoundaries headerLine
    let bodyLines := lines.drop (skipHeaderBlock lines headerIndex)
    let rawRows := collectRawRows bodyLines columnBoundaries
    rawRows.filterMap (fun row => normalizeRow row pageNumber)

/-! ## Concrete claim scenarios -/

/-- A blank record with the defaulted fields shared by the concrete
scenarios below. -/
def blankRecord : TransactionRecord :=
  { cont := 0, fecha := "", hora := "", timestamp := "", transaccion := "",
    operador := "", equipo := "", importe := 0, saldo := 0, titulo := "",
    perfil := "", etapa := "", page := 1 }

/-- Two-digit zero padding for scenario timestamps. -/
def pad2 (n : Nat) : String := if n < 10 then "0" ++ toString n else toString n

/-- The BONOBUS10 title-purchase record of the spec's concrete pass
scenario. -/
def bonobusPurchaseRecord : TransactionRecord :=
  { blankRecord with
    cont := 1, transaccion := "Compra titulo", titulo := "BONOBUS10",
    importe := ⟨-1000, 100⟩, timestamp := "2024-01-01T08:00:00" }

/-- The `i`-th (0-based) single-tap ride record of the scenario, one
minute apart, each charging 1.25. -/
def bonobusRideRecord (i : Nat) : TransactionRecord :=
  { blankRecord with
    cont := i + 2, transaccion := "Validacion unica", titulo := "BONOBUS10",
    importe := ⟨-125, 100⟩,
    timestamp := "2024-01-01T09:" ++ pad2 i ++ ":00" }

/-- The purchase followed by `n` single-tap rides, already in
chronological order. -/
def bonobusScenario (n : Nat) : List TransactionRecord :=
  bonobusPurchaseRecord :: (List.range n).map bonobusRideRecord

/-- The fare insight of the `k`-th ride (1-based) in the `n`-ride
scenario. -/
def bonobusRideInsight (n k : Nat) : Option FareInsight :=
  mapGet (buildFareInsights (bonobusScenario n)) (getRecordKey (bonobusRideRecord (k - 1)))

/-- The `remainingTrips` reported by the `k`-th ride's limited-pass
context. -/
def bonobusRideRemaining (n k : Nat) : Option (Option Int) :=
  ((bonobusRideInsight n k).bind (fun i => i.limitedContext)).map
    (fun c => c.remainingTrips)

/-- A single-tap journey carrying one record with the given amount
(insight-free), for exercising the statistics aggregator directly. -/
def driftJourney (i : Nat) (amount : JsNumber) : JourneyBlock :=
  pushSingle { blankRecord with cont := i, importe := amount } "unica"

/-- The exact binary64 value of the literal `0.1`
(`3602879701896397 * 2 ^ -55`). -/
def tenthD : JsNumber := ⟨3602879701896397, 2 ^ 55⟩

/-- The exact binary64 value of the literal `0.2`. -/
def fifthD : JsNumber := ⟨3602879701896397, 2 ^ 54⟩

/-- The exact binary64 value of the literal `0.3`. -/
def threeTenthsD : JsNumber := ⟨5404319552844595, 2 ^ 54⟩

/-- A page line whose text carries the three header column names in
mixed case only. -/
def mixedCaseHeaderLine : Line :=
  { y := 0, segments := [⟨0, "Cont Fecha Importe"⟩] }

/-- A concrete entry validation for the pairing witness. -/
def pairEntryRecord : TransactionRecord :=
  { blankRecord with
    cont := 1, transaccion := "Entrada", timestamp := "2024-01-01T08:00:00" }

/-- A concrete exit validation eight minutes later. -/
def pairExitRecord : TransactionRecord :=
  { blankRecord with
    cont := 2, transaccion := "Salida", timestamp := "2024-01-01T08:08:00" }

/-- The pending-entry slot as a record list (for bookkeeping the journey
builder's conservation invariant). -/
def pendingList : Option TransactionRecord → List TransactionRecord
  | some pending => [pending]
  | none => []

/-- All records owned by an intermediate journey-builder state: those
already emitted into journeys plus the pending entry. -/
def journeyRecordsAcc (st : List JourneyBlock × Option TransactionRecord) :
    List TransactionRecord :=
  st.1.flatMap JourneyBlock.records ++ pendingList st.2

/-! # Theorems -/

/-! ## Stable-sort permutation lemmas -/

theorem insertSorted_perm (ltb : α → α → Bool) (a : α) :
    ∀ l : List α, (insertSorted ltb a l).Perm (a :: l)
  | [] => List.Perm.refl _
  | b :: l => by
    simp only [insertSorted]
    split
    · exact List.Perm.refl _
    · exact ((insertSorted_perm ltb a l).cons b).trans (List.Perm.swap a b l)

theorem jsSort_go_perm (ltb : α → α → Bool) :
    ∀ (l acc : List α),
      (l.foldl (fun acc a => insertSorted ltb a acc) acc).Perm (acc ++ l)
  | [], acc => by simp
  | a :: l, acc => by
    simp only [List.foldl_cons]
    exact (jsSort_go_perm ltb l (insertSorted ltb a acc)).trans
      (((insertSorted_perm ltb a acc).append_right l).trans List.perm_middle.symm)

theorem jsSort_perm (ltb : α → α → Bool) (l : List α) : (jsSort ltb l).Perm l := by
  simpa [jsSort] using jsSort_go_perm ltb l []

/-! ## Journey-builder record conservation -/

theorem journeyStep_records (st : List JourneyBlock × Option TransactionRecord)
    (record : TransactionRecord) :
    (journeyRecordsAcc (journeyStep st record)).Perm (journeyRecordsAcc st ++ [record]) := by
  obtain ⟨journeys, pendingEntry⟩ := st
  simp only [journeyStep]
  split
  · -- recarga
    simp only [journeyRecordsAcc, List.flatMap_append, recargaBlock, List.append_assoc]
    exact List.Perm.append_left _ (List.perm_append_singleton record _).symm
  · split
    · -- single validation
      simp only [journeyRecordsAcc, List.flatMap_append, pushSingle, List.append_assoc]
      exact List.Perm.append_left _ (List.perm_append_singleton record _).symm
    · split
      · -- entry validation
        cases pendingEntry with
        | some pending =>
          simp [journeyRecordsAcc, pendingList, List.flatMap_append, pushSingle]
        | none =>
          simp [journeyRecordsAcc, pendingList, List.flatMap_append]
      · split
        · -- exit validation
          cases pendingEntry with
          | some pending =>
            simp only []
            split
            · simp [journeyRecordsAcc, pendingList, List.flatMap_append, pushSingle]
            · split
              · simp [journeyRecordsAcc, pendingList, List.flatMap_append, pushSingle]
              · simp [journeyRecordsAcc, pendingList, List.flatMap_append, viajeBlock]
          | none =>
            simp only [journeyRecordsAcc, pendingList, List.flatMap_append, pushSingle,
              List.append_assoc, List.flatMap_nil]
            exact List.Perm.append_left _ (List.perm_append_singleton record _).symm
        · -- otros
          simp only [journeyRecordsAcc, List.flatMap_append, otrosBlock, List.append_assoc]
          exact List.Perm.append_left _ (List.perm_append_singleton record _).symm

theorem journeyFold_records :
    ∀ (l : List TransactionRecord) (st : List JourneyBlock × Option TransactionRecord),
      (journeyRecordsAcc (l.foldl journeyStep st)).Perm (journeyRecordsAcc st ++ l)
  | [], st => by simp
  | record :: l, st => by
    simp only [List.foldl_cons]
    exact (journeyFold_records l (journeyStep st record)).trans
      (((journeyStep_records st record).append_right l).trans
        (by simp [List.append_assoc]))

/-- C4: every input record lands in exactly one `JourneyBlock.records`
list across the output of `buildJourneyBlocks` — the concatenation of all
journeys' records is a permutation of the input (no record dropped, none
duplicated), with an unconsumed pending entry flushed as a
`viaje-unico`. -/
theorem journey_blocks_exhaustive (records : List TransactionRecord) :
    ((buildJourneyBlocks records).flatMap JourneyBlock.records).Perm records := by
  unfold buildJourneyBlocks buildJourneyBlocksSt
  simp only []
  set sorted := jsSort (fun a b => getRecordDate a < getRecordDate b) records with hsorted
  set folded := sorted.foldl journeyStep ([], none) with hfolded
  set flushed := folded.1 ++
    (match folded.2 with
     | some pending => [pushSingle pending "entrada-final"]
     | none => []) with hflushed
  have h1 : ((jsSort (fun a b => getRecordDate b.start < getRecordDate a.start)
      flushed).flatMap JourneyBlock.records).Perm (flushed.flatMap JourneyBlock.records) :=
    (jsSort_perm _ flushed).flatMap_right JourneyBlock.records
  have h2 : flushed.flatMap JourneyBlock.records = journeyRecordsAcc folded := by
    rw [hflushed]
    cases hp : folded.2 with
    | some pending => simp [journeyRecordsAcc, pendingList, List.flatMap_append, pushSingle, hp]
    | none => simp [journeyRecordsAcc, pendingList, List.flatMap_append, hp]
  have h3 : (journeyRecordsAcc folded).Perm sorted := by
    have := journeyFold_records sorted ([], none)
    simpa [journeyRecordsAcc, pendingList] using this
  exact (h1.trans (h2 ▸ h3)).trans (jsSort_perm _ records)

/-! ## Journey-statistics monoid lemmas -/

attribute [ext] JourneyStats

theorem jsAdd_zero_right (a : JsNumber) : a.add 0 = a := by
  show a.add ⟨0, 1⟩ = a
  cases a
  simp only [JsNumber.add, JsNumber.mk.injEq]
  constructor <;> ring

theorem jsAdd_zero_left (a : JsNumber) : JsNumber.add 0 a = a := by
  show JsNumber.add ⟨0, 1⟩ a = a
  cases a
  simp only [JsNumber.add, JsNumber.mk.injEq]
  constructor <;> ring

theorem jsAdd_assoc (a b c : JsNumber) : (a.add b).add c = a.add (b.add c) := by
  cases a; cases b; cases c
  simp only [JsNumber.add, JsNumber.mk.injEq]
  constructor <;> ring

theorem addStats_zero_left (s : JourneyStats) : addStats createJourneyStats s = s := by
  cases s
  simp [addStats, createJourneyStats, jsAdd_zero_left]

theorem addStats_zero_right (s : JourneyStats) : addStats s createJourneyStats = s := by
  cases s
  simp [addStats, createJourneyStats, jsAdd_zero_right]

theorem addStats_assoc (a b c : JourneyStats) :
    addStats (addStats a b) c = addStats a (addStats b c) := by
  ext <;> simp [addStats, jsAdd_assoc] <;> omega

theorem statsRecordStep_add (fareInsights : FareInsightsMap) (s t : JourneyStats)
    (record : TransactionRecord) :
    statsRecordStep fareInsights (addStats s t) record =
      addStats s (statsRecordStep fareInsights t record) := by
  simp only [statsRecordStep]
  split
  · split
    · simp [addStats, jsAdd_assoc]
    · simp [addStats, jsAdd_assoc]
  · split
    · simp [addStats, jsAdd_assoc]
    · simp [addStats, jsAdd_assoc]

theorem foldl_statsRecordStep_add (fareInsights : FareInsightsMap) :
    ∀ (l : List TransactionRecord) (s t : JourneyStats),
      l.foldl (statsRecordStep fareInsights) (addStats s t) =
        addStats s (l.foldl (statsRecordStep fareInsights) t)
  | [], _, _ => rfl
  | record :: l, s, t => by
    simp only [List.foldl_cons, statsRecordStep_add]
    exact foldl_statsRecordStep_add fareInsights l s (statsRecordStep fareInsights t record)

theorem statsStep_add (fareInsights : FareInsightsMap) (s t : JourneyStats)
    (journey : JourneyBlock) :
    statsStep fareInsights (addStats s t) journey =
      addStats s (statsStep fareInsights t journey) := by
  simp only [statsStep]
  split
  · split
    · ext <;> simp [addStats, jsAdd_assoc] <;> omega
    · ext <;> simp [addStats, jsAdd_assoc] <;> omega
  · split
    · split
      · split
        · convert foldl_statsRecordStep_add fareInsights journey.records s _ using 2
          ext <;> simp [addStats] <;> omega
        · convert foldl_statsRecordStep_add fareInsights journey.records s _ using 2
          ext <;> simp [addStats] <;> omega
      · convert foldl_statsRecordStep_add fareInsights journey.records s _ using 2
        ext <;> simp [addStats] <;> omega
    · rfl

theorem foldl_statsStep_add (fareInsights : FareInsightsMap) :
    ∀ (journeys : List JourneyBlock) (s t : JourneyStats),
      journeys.foldl (statsStep fareInsights) (addStats s t) =
        addStats s (journeys.foldl (statsStep fareInsights) t)
  | [], _, _ => rfl
  | journey :: journeys, s, t => by
    simp only [List.foldl_cons, statsStep_add]
    exact foldl_statsStep_add fareInsights journeys s (statsStep fareInsights t journey)

theorem computeJourneyStats_append (partA partB : List JourneyBlock)
    (fareInsights : FareInsightsMap) :
    computeJourneyStats (partA ++ partB) fareInsights =
      addStats (computeJourneyStats partA fareInsights)
        (computeJourneyStats partB fareInsights) := by
  unfold computeJourneyStats
  rw [List.foldl_append]
  calc
    partB.foldl (statsStep fareInsights) (partA.foldl (statsStep fareInsights) createJourneyStats)
        = partB.foldl (statsStep fareInsights)
            (addStats (partA.foldl (statsStep fareInsights) createJourneyStats)
              createJourneyStats) := by
          rw [addStats_zero_right]
    _ = addStats (partA.foldl (statsStep fareInsights) createJourneyStats)
          (partB.foldl (statsStep fareInsights) createJourneyStats) :=
        foldl_statsStep_add fareInsights partB _ _

theorem statsRecordStepF64_intFields (fareInsights : FareInsightsMap)
    (stats : JourneyStats) (record : TransactionRecord) :
    intFields (statsRecordStepF64 fareInsights stats record) = intFields stats := by
  simp only [statsRecordStepF64]
  split <;> split <;> rfl

theorem statsRecordStep_intFields (fareInsights : FareInsightsMap)
    (stats : JourneyStats) (record : TransactionRecord) :
    intFields (statsRecordStep fareInsights stats record) = intFields stats := by
  simp only [statsRecordStep]
  split <;> split <;> rfl

theorem recFoldF64_intFields (fareInsights : FareInsightsMap) :
    ∀ (records : List TransactionRecord) (stats : JourneyStats),
      intFields (records.foldl (statsRecordStepF64 fareInsights) stats) = intFields stats
  | [], _ => rfl
  | record :: records, stats => by
    rw [List.foldl_cons, recFoldF64_intFields fareInsights records,
      statsRecordStepF64_intFields]

theorem recFold_intFields (fareInsights : FareInsightsMap) :
    ∀ (records : List TransactionRecord) (stats : JourneyStats),
      intFields (records.foldl (statsRecordStep fareInsights) stats) = intFields stats
  | [], _ => rfl
  | record :: records, stats => by
    rw [List.foldl_cons, recFold_intFields fareInsights records, statsRecordStep_intFields]

theorem statsStepF64_intFields (fareInsights : FareInsightsMap)
    (s s' : JourneyStats) (journey : JourneyBlock)
    (h : intFields s = intFields s') :
    intFields (statsStepF64 fareInsights s journey) =
      intFields (statsStep fareInsights s' journey) := by
  have h1 : s.rides = s'.rides := congrArg (fun p => p.1) h
  have h2 : s.walletRecharges = s'.walletRecharges := congrArg (fun p => p.2.1) h
  have h3 : s.titlePurchases = s'.titlePurchases := congrArg (fun p => p.2.2.1) h
  have h4 : s.travelMinutes = s'.travelMinutes := congrArg (fun p => p.2.2.2) h
  by_cases hk : journey.kind = "recarga"
  · simp only [statsStepF64, statsStep]
    rw [if_pos hk, if_pos hk]
    by_cases ht : Option.map (fun f => f.usageKind)
        (mapGet fareInsights (getRecordKey journey.start)) = some "title-recharge"
    · rw [if_pos ht, if_pos ht]
      simp [intFields, h1, h2, h3, h4]
    · rw [if_neg ht, if_neg ht]
      simp [intFields, h1, h2, h3, h4]
  · by_cases hv : journey.kind = "viaje" ∨ journey.kind = "viaje-unico"
    · simp only [statsStepF64, statsStep]
      rw [if_neg hk, if_neg hk, if_pos hv, if_pos hv]
      by_cases hvv : journey.kind = "viaje"
      · rw [if_pos hvv, if_pos hvv, recFoldF64_intFields, recFold_intFields]
        rcases journey.durationMinutes with _ | d <;> simp [intFields, h1, h2, h3, h4]
      · rw [if_neg hvv, if_neg hvv, recFoldF64_intFields, recFold_intFields]
        simp [intFields, h1, h2, h3, h4]
    · simp only [statsStepF64, statsStep]
      rw [if_neg hk, if_neg hk, if_neg hv, if_neg hv]
      exact h

theorem statsFold_intFields (fareInsights : FareInsightsMap) :
    ∀ (journeys : List JourneyBlock) (s s' : JourneyStats),
      intFields s = intFields s' →
      intFields (journeys.foldl (statsStepF64 fareInsights) s) =
        intFields (journeys.foldl (statsStep fareInsights) s')
  | [], _, _, h => h
  | journey :: journeys, s, s', h => by
    rw [List.foldl_cons, List.foldl_cons]
    exact statsFold_intFields fareInsights journeys _ _
      (statsStepF64_intFields fareInsights s s' journey h)

theorem computeJourneyStatsF64_intFields (journeys : List JourneyBlock)
    (fareInsights : FareInsightsMap) :
    intFields (computeJourneyStatsF64 journeys fareInsights) =
      intFields (computeJourneyStats journeys fareInsights) :=
  statsFold_intFields fareInsights journeys _ _ rfl

set_option maxRecDepth 10000 in
/-- C3 counterexample: at the program's IEEE binary64 precision the
partition equality fails.  Three single-tap journeys of 0.1, 0.2 and
0.3 (their exact double values), split `[j1]` / `[j2, j3]`: computing
once over the whole gives `spent = 0.6000000000000001`
(`5404319552844596 * 2 ^ -53`), while summing the two partial stats gives
`spent = 0.6` (`5404319552844595 * 2 ^ -53`) — a strictly smaller value,
so the claimed exact field-wise equality does not hold. -/
theorem stats_additive_counterexample :
    (computeJourneyStatsF64
        ([driftJourney 1 tenthD] ++ [driftJourney 2 fifthD, driftJourney 3 threeTenthsD])
        ([] : FareInsightsMap)).spent = ⟨5404319552844596, 9007199254740992⟩ ∧
    (sumJourneyStatsF64
        [computeJourneyStatsF64 [driftJourney 1 tenthD] ([] : FareInsightsMap),
         computeJourneyStatsF64 [driftJourney 2 fifthD, driftJourney 3 threeTenthsD]
           ([] : FareInsightsMap)]).spent = ⟨5404319552844595, 9007199254740992⟩ ∧
    JsNumber.ltb
      (sumJourneyStatsF64
        [computeJourneyStatsF64 [driftJourney 1 tenthD] ([] : FareInsightsMap),
         computeJourneyStatsF64 [driftJourney 2 fifthD, driftJourney 3 threeTenthsD]
           ([] : FareInsightsMap)]).spent
      (computeJourneyStatsF64
        ([driftJourney 1 tenthD] ++ [driftJourney 2 fifthD, driftJourney 3 threeTenthsD])
        ([] : FareInsightsMap)).spent = true := by
  decide

/-- C3 (amended): splitting a journey set into two parts, computing
`computeJourneyStats` on each and summing with `sumJourneyStats` agrees
exactly with computing once over the whole — for all six fields when the
monetary accumulation is carried out in exact arithmetic (first
conjunct), and, under the program's own IEEE binary64 accumulation
(`computeJourneyStatsF64`/`sumJourneyStatsF64`), for the integer-valued
fields `rides`, `walletRecharges`, `titlePurchases` and `travelMinutes`
(second conjunct); the binary64 `spent`/`savings` sums can drift by
rounding (see the counterexample). -/
theorem journey_stats_additive (partA partB : List JourneyBlock)
    (fareInsights : FareInsightsMap) :
    sumJourneyStats
        [computeJourneyStats partA fareInsights, computeJourneyStats partB fareInsights] =
      computeJourneyStats (partA ++ partB) fareInsights ∧
    intFields (sumJourneyStatsF64
        [computeJourneyStatsF64 partA fareInsights,
         computeJourneyStatsF64 partB fareInsights]) =
      intFields (computeJourneyStatsF64 (partA ++ partB) fareInsights) := by
  have hexact : sumJourneyStats
      [computeJourneyStats partA fareInsights, computeJourneyStats partB fareInsights] =
      computeJourneyStats (partA ++ partB) fareInsights := by
    rw [computeJourneyStats_append]
    simp [sumJourneyStats, addStats_zero_left]
  refine ⟨hexact, ?_⟩
  have hA := computeJourneyStatsF64_intFields partA fareInsights
  have hB := computeJourneyStatsF64_intFields partB fareInsights
  have hAB := computeJourneyStatsF64_intFields (partA ++ partB) fareInsights
  have hproj := congrArg intFields hexact
  simp only [sumJourneyStats, sumJourneyStatsF64, List.foldl_cons, List.foldl_nil] at hproj ⊢
  simp only [intFields, addStats, addStatsF64, createJourneyStats,
    Prod.mk.injEq] at hproj hA hB hAB ⊢
  obtain ⟨pa1, pa2, pa3, pa4⟩ := hA
  obtain ⟨pb1, pb2, pb3, pb4⟩ := hB
  obtain ⟨pab1, pab2, pab3, pab4⟩ := hAB
  obtain ⟨q1, q2, q3, q4⟩ := hproj
  refine ⟨by omega, by omega, by omega, by omega⟩

/-- C2: pairing correctness of `buildJourneyBlocks` on an entry/exit
pair with nothing between them.  With `d` the exit-minus-entry delta in
milliseconds: for `0 < d ≤ 10h` exactly one `viaje` is emitted, with
`durationMinutes = max 1 (round (d / 60000))` (see `viajeBlock`); for
`d < 0` or `d > 10h` the two records are emitted as two separate
`viaje-unico` journeys and never paired. -/
theorem journey_pairing (e x : TransactionRecord)
    (he1 : isRecargaTransaction e = false) (he2 : isSingleValidation e = false)
    (he3 : isEntryValidation e = true)
    (hx1 : isRecargaTransaction x = false) (hx2 : isSingleValidation x = false)
    (hx3 : isEntryValidation x = false) (hx4 : isExitValidation x = true) :
    (0 < getRecordDate x - getRecordDate e →
      getRecordDate x - getRecordDate e ≤ TEN_HOURS_MS →
      buildJourneyBlocks [e, x] = [viajeBlock e x (getRecordDate x - getRecordDate e)]) ∧
    (getRecordDate x - getRecordDate e < 0 →
      buildJourneyBlocks [e, x] =
        [pushSingle e "entrada-final", pushSingle x "salida-suelta"]) ∧
    (TEN_HOURS_MS < getRecordDate x - getRecordDate e →
      buildJourneyBlocks [e, x] =
        [pushSingle x "salida-10h", pushSingle e "entrada-10h"]) := by
  have hT : TEN_HOURS_MS = 36000000 := rfl
  refine ⟨fun hd1 hd2 => ?_, fun hd => ?_, fun hd => ?_⟩
  · have hsorted : jsSort (fun a b => getRecordDate a < getRecordDate b) [e, x] = [e, x] := by
      simp only [jsSort, List.foldl, insertSorted, decide_eq_true_eq]
      rw [if_neg (by omega)]
    have hstep1 : journeyStep ([], none) e = ([], some e) := by
      simp [journeyStep, he1, he2, he3]
    have hstep2 : journeyStep ([], some e) x =
        ([viajeBlock e x (getRecordDate x - getRecordDate e)], none) := by
      simp only [journeyStep, hx1, hx2, hx3, hx4, Bool.false_eq_true, if_false, if_true]
      rw [if_neg (by omega), if_neg (by omega)]
      rfl
    simp only [buildJourneyBlocks, buildJourneyBlocksSt, hsorted, List.foldl, hstep1, hstep2]
    simp [jsSort, insertSorted]
  · have hsorted : jsSort (fun a b => getRecordDate a < getRecordDate b) [e, x] = [x, e] := by
      simp only [jsSort, List.foldl, insertSorted, decide_eq_true_eq]
      rw [if_pos (by omega)]
    have hstep1 : journeyStep ([], none) x = ([pushSingle x "salida-suelta"], none) := by
      simp [journeyStep, hx1, hx2, hx3, hx4]
    have hstep2 : journeyStep ([pushSingle x "salida-suelta"], none) e =
        ([pushSingle x "salida-suelta"], some e) := by
      simp [journeyStep, he1, he2, he3]
    simp only [buildJourneyBlocks, buildJourneyBlocksSt, hsorted, List.foldl, hstep1, hstep2]
    simp only [jsSort, List.foldl, insertSorted, decide_eq_true_eq, List.append_nil]
    rw [if_pos (by simp only [pushSingle]; omega)]
  · have hsorted : jsSort (fun a b => getRecordDate a < getRecordDate b) [e, x] = [e, x] := by
      simp only [jsSort, List.foldl, insertSorted, decide_eq_true_eq]
      rw [if_neg (by omega)]
    have hstep1 : journeyStep ([], none) e = ([], some e) := by
      simp [journeyStep, he1, he2, he3]
    have hstep2 : journeyStep ([], some e) x =
        ([pushSingle e "entrada-10h", pushSingle x "salida-10h"], none) := by
      simp only [journeyStep, hx1, hx2, hx3, hx4, Bool.false_eq_true, if_false, if_true]
      rw [if_neg (by omega), if_pos (by omega)]
      rfl
    simp only [buildJourneyBlocks, buildJourneyBlocksSt, hsorted, List.foldl, hstep1, hstep2]
    simp only [jsSort, List.foldl, insertSorted, decide_eq_true_eq, List.append_nil]
    rw [if_pos (by simp only [pushSingle]; omega)]

theorem journey_pairing_witness :
    buildJourneyBlocks [pairEntryRecord, pairExitRecord] =
      [viajeBlock pairEntryRecord pairExitRecord
        (getRecordDate pairExitRecord - getRecordDate pairEntryRecord)] :=
  (journey_pairing pairEntryRecord pairExitRecord (by decide) (by decide) (by decide)
    (by decide) (by decide) (by decide) (by decide)).1 (by decide) (by decide)

/-- C1 counterexample: in the spec's concrete scenario (a BONOBUS10
purchase followed by ten single-tap rides) the first ride's insight
reports `remainingTrips = 10`, not `9`, and the tenth reports `1`, not
`0`: the purchase-triggered `ignoreNextEntry` flag makes the first
qualifying ride a free non-decrementing one, so after `k` rides the
remaining count is `T - (k - 1)`, not `T - k`. -/
theorem pass_decrement_counterexample :
    bonobusRideRemaining 10 1 = some (some 10) ∧
    bonobusRideRemaining 10 10 = some (some 1) ∧
    ¬ bonobusRideRemaining 10 1 = some (some 9) ∧
    ¬ bonobusRideRemaining 10 10 = some (some 0) := by decide

/-- C1 (amended): for the limited pass with `T = 10` trips, after `k`
qualifying single-tap rides (`1 ≤ k ≤ T`) the `k`-th ride's insight has
`remainingTrips = T - (k - 1)` — the first qualifying ride consumes the
purchase's ignore flag without decrementing — and the value is never
negative; the purchase event itself never decrements (its own insight
still carries the full `T` and the count right after it is still `T`). -/
theorem pass_decrement_monotone (k : Nat) (hk1 : 1 ≤ k) (hk2 : k ≤ 10) :
    bonobusRideRemaining 10 k = some (some (10 - ((k : Int) - 1))) ∧
    0 ≤ 10 - ((k : Int) - 1) ∧
    ((mapGet (buildFareInsights (bonobusScenario 10))
        (getRecordKey bonobusPurchaseRecord)).bind
      (fun i => i.passContext)).map (fun p => p.remainingTrips) = some (some 10) := by
  revert k
  decide

theorem pass_decrement_monotone_witness :
    bonobusRideRemaining 10 3 = some (some 8) :=
  (pass_decrement_monotone 3 (by decide) (by decide)).1

/-- C5 counterexample: with the start code unknown and the end code a
known station, `findMetroPath` returns the empty path, not the
one-element path containing the known endpoint that the claim
predicts. -/
theorem metro_degenerate_counterexample :
    hasStation "CAV" = true ∧ hasStation "QQQ" = false ∧
    findMetroPath "QQQ" "CAV" = [] ∧ ¬ findMetroPath "QQQ" "CAV" = ["CAV"] := by
  decide

/-- C5 (amended): for nonempty codes, identical known start/end yields
the one-element path `[start]`; a known start with an unknown end yields
`[start]`; an unknown start yields the empty result even when the end is
known (in particular when neither code is known). -/
theorem metro_degenerate_paths (fromCode toCode : String)
    (hf : fromCode ≠ "") (ht : toCode ≠ "") :
    (fromCode = toCode → hasStation fromCode = true →
      findMetroPath fromCode toCode = [fromCode]) ∧
    (hasStation fromCode = true → hasStation toCode = false →
      findMetroPath fromCode toCode = [fromCode]) ∧
    (hasStation fromCode = false → findMetroPath fromCode toCode = []) := by
  refine ⟨fun heq hknown => ?_, fun hknown hunknown => ?_, fun hunknown => ?_⟩
  · subst heq
    simp [findMetroPath, hf, hknown]
  · simp [findMetroPath, hf, ht, hknown, hunknown]
  · simp [findMetroPath, hf, ht, hunknown]

theorem metro_degenerate_paths_witness :
    findMetroPath "SIN" "QQQ" = ["SIN"] :=
  (metro_degenerate_paths "SIN" "QQQ" (by decide) (by decide)).2.1 (by decide) (by decide)

set_option maxRecDepth 1000000 in
/-- C6: breadth-first path symmetry on the station graph — for every
pair of station codes, the two directions give paths of equal length
made of the same stations, one the reverse of the other. -/
theorem metro_path_symmetry :
    ∀ a ∈ STATION_CODES, ∀ b ∈ STATION_CODES,
      (findMetroPath a b).length = (findMetroPath b a).length ∧
      (findMetroPath a b).reverse = findMetroPath b a := by decide

theorem metro_path_symmetry_witness :
    (findMetroPath "PLE" "KUK").length = (findMetroPath "KUK" "PLE").length ∧
    (findMetroPath "PLE" "KUK").reverse = findMetroPath "KUK" "PLE" :=
  metro_path_symmetry "PLE" (by decide) "KUK" (by decide)

/-- C7 counterexample: a line carrying the three column names in mixed
case contains them all case-insensitively, yet `findHeaderIndex` does not
locate it (the source's `includes` tests are case-sensitive), so the page
yields zero records. -/
theorem header_match_counterexample :
    strContainsCI (lineToString mixedCaseHeaderLine) "CONT" = true ∧
    strContainsCI (lineToString mixedCaseHeaderLine) "FECHA" = true ∧
    strContainsCI (lineToString mixedCaseHeaderLine) "IMPORTE" = true ∧
    findHeaderIndex [mixedCaseHeaderLine] = -1 ∧
    extractPageRecords [mixedCaseHeaderLine] 1 = [] := by decide

/-- C7 (amended): the header line is located by requiring the
simultaneous, case-sensitive presence of the three substrings `CONT`,
`FECHA` and `IMPORTE` (see `isHeaderLine`); a page whose lines contain no
such header produces zero records rather than an error. -/
theorem header_detection (lines : List Line) (pageNumber : Nat) :
    (findHeaderIndex lines = -1 ↔ ∀ line ∈ lines, isHeaderLine line = false) ∧
    (findHeaderIndex lines = -1 → extractPageRecords lines pageNumber = []) := by
  have hidx : findHeaderIndex lines = -1 ↔ lines.findIdx? isHeaderLine = none := by
    unfold findHeaderIndex
    cases h : lines.findIdx? isHeaderLine with
    | some idx => simp
    | none => simp
  constructor
  · rw [hidx, List.findIdx?_eq_none_iff]
  · intro h
    unfold extractPageRecords
    rw [hidx.mp h]

theorem header_detection_witness :
    extractPageRecords [mixedCaseHeaderLine] 1 = [] :=
  (header_detection [mixedCaseHeaderLine] 1).2 (by decide)

/-- C9: neither `buildFareInsights` nor `buildJourneyBlocks` mutates its
input — in the store-passing embedding of the JS array semantics, both
sort a spread copy `[...records]`, and the caller-visible array returned
by the call is the input, unchanged and in the original order. -/
theorem builders_no_input_mutation (records : List TransactionRecord) :
    (buildFareInsightsSt records).2 = records ∧
    (buildJourneyBlocksSt records).2 = records :=
  ⟨rfl, rfl⟩

/-- C8: tariff lookup is total and never fails — for every free-text
title label the result is a catalog tariff or the default wallet tariff;
whenever the normalized, alias-resolved label matches no catalog entry
the result is exactly `DEFAULT_TARIFF`, and in particular the empty
label, the aliases and an unknown label all resolve to it. -/
theorem tariff_lookup_total (title : String) :
    (getTariffInfoFromTitle title ∈ TARIFFS ∨ getTariffInfoFromTitle title = DEFAULT_TARIFF) ∧
    (TARIFF_BY_NAME ((TARIFF_ALIASES (normalizeTitleLabel title)).getD
        (normalizeTitleLabel title)) = none →
      getTariffInfoFromTitle title = DEFAULT_TARIFF) ∧
    getTariffInfoFromTitle "" = DEFAULT_TARIFF ∧
    getTariffInfoFromTitle "CREDITRANS" = DEFAULT_TARIFF ∧
    getTariffInfoFromTitle "—" = DEFAULT_TARIFF ∧
    getTariffInfoFromTitle "TITULO DESCONOCIDO XYZ" = DEFAULT_TARIFF := by
  have key : getTariffInfoFromTitle title =
      (TARIFF_BY_NAME ((TARIFF_ALIASES (normalizeTitleLabel title)).getD
        (normalizeTitleLabel title))).getD DEFAULT_TARIFF := rfl
  refine ⟨?_, ?_, by decide, by decide, by decide, by decide⟩
  · rw [key]
    cases h : TARIFF_BY_NAME ((TARIFF_ALIASES (normalizeTitleLabel title)).getD
        (normalizeTitleLabel title)) with
    | some tariff =>
      left
      have h' := h
      unfold TARIFF_BY_NAME at h'
      simpa using List.mem_reverse.mp (List.mem_of_find?_eq_some h')
    | none => right; rfl
  · intro h
    rw [key, h]
    rfl

theorem tariff_lookup_total_witness :
    getTariffInfoFromTitle "TITULO DESCONOCIDO XYZ" = DEFAULT_TARIFF :=
  (tariff_lookup_total "TITULO DESCONOCIDO XYZ").2.1 (by decide)

/-- C10: monetary parsing is total — `parseAmount` yields `0` for the
falsy argument, whenever the normalized string does not parse as a number
(`NaN`), and whenever the parsed magnitude overflows binary64 (the
`Number.isFinite` guard); otherwise it yields the parsed value.  Every
result is a finite double value (`jsIsFiniteDouble`), and every record
produced by `normalizeRow` carries `parseAmount` results in `importe` and
`saldo`. -/
theorem parse_amount_total :
    parseAmount "" = 0 ∧
    (∀ value : String, jsParseFloat (normalizeAmountText value) = none →
      parseAmount value = 0) ∧
    (∀ value : String, ∀ numeric : JsNumber,
      jsParseFloat (normalizeAmountText value) = some numeric →
      jsIsFiniteDouble numeric = true → parseAmount value = numeric) ∧
    (∀ value : String, ∀ numeric : JsNumber,
      jsParseFloat (normalizeAmountText value) = some numeric →
      jsIsFiniteDouble numeric = false → parseAmount value = 0) ∧
    (∀ value : String, jsIsFiniteDouble (parseAmount value) = true) ∧
    (∀ row page record, normalizeRow row page = some record →
      record.importe = parseAmount row.importe ∧
      record.saldo = parseAmount row.saldo) := by
  refine ⟨rfl, fun value h => ?_, fun value numeric h hfin => ?_,
    fun value numeric h hinf => ?_, fun value => ?_, fun row page record h => ?_⟩
  · unfold parseAmount
    split
    · rfl
    · rw [h]
  · unfold parseAmount
    split
    · rename_i hv
      subst hv
      rw [(by decide : jsParseFloat (normalizeAmountText "") = none)] at h
      exact Option.noConfusion h
    · rw [h]
      simp [hfin]
  · unfold parseAmount
    split
    · rfl
    · rw [h]
      simp [hinf]
  · unfold parseAmount
    split
    · decide
    · cases hp : jsParseFloat (normalizeAmountText value) with
      | none => decide
      | some numeric =>
        by_cases hfin : jsIsFiniteDouble numeric = true
        · simp [hfin]
        · simp only [Bool.not_eq_true] at hfin
          simp only [hfin, Bool.false_eq_true, if_false]
          decide
  · simp only [normalizeRow] at h
    split at h
    · exact Option.noConfusion h
    · rw [Option.some_inj] at h
      subst h
      exact ⟨rfl, rfl⟩

set_option maxRecDepth 4000 in
theorem parse_amount_total_witness :
    parseAmount "-1,25" = ⟨-125, 100⟩ ∧ parseAmount "1e309" = 0 ∧ parseAmount "abc" = 0 :=
  ⟨parse_amount_total.2.2.1 "-1,25" ⟨-125, 100⟩ (by decide) (by decide),
   parse_amount_total.2.2.2.1 "1e309" ⟨10 ^ 309, 1⟩ (by decide) (by decide),
   parse_amount_total.2.1 "abc" (by decide)⟩
